import Mathlib

/-!
# OKI valve controller driver: `drivers/misc/okvc.c`

A shallow embedding of the actuator state machine of the driver: the
`struct okvc` record, the four `run_*` attribute stores, the parameter
stores, the encoder interrupt handler `okvc_irq`, the timer callback
`okvc_timer_callback` and the deferred ADC work `handle_adc_work`.

C `int` values are mathematical integers; every place where the C code
narrows a value to `int` or increments an `int` goes through `to_int`,
the 32-bit two's-complement wrap.  Durations stay in milliseconds: the
`ktime_t` of the model counts milliseconds.
-/

namespace Okvc

/-! ## Machine integers -/

/-- The value a 32-bit two's-complement `int` holds after it is assigned `v`. -/
def to_int (v : Int) : Int := (v + 2147483648) % 4294967296 - 2147483648

/-- Largest value of a C `int`. -/
def INT_MAX : Int := 2147483647

/-! ## GPIO line numbers (the `#define`s of the driver) -/

def ENCODER_1_A : Nat := 136
def ENCODER_1_B : Nat := 135
def ENCODER_2_A : Nat := 27
def ENCODER_2_B : Nat := 26
def DIR_1 : Nat := 117
def DIR_2 : Nat := 42
def SLEEP_1 : Nat := 113
def SLEEP_2 : Nat := 12
def MODE_1_1 : Nat := 119
def MODE_1_2 : Nat := 120
def MODE_2_1 : Nat := 46
def MODE_2_2 : Nat := 10
def TXS1 : Nat := 129
def TXS2 : Nat := 11
def TXS_OE : Nat := 18

/-- The `enum okvc_state` of the driver. -/
inductive okvc_state
  | OKVC_IDLE
  | OKVC_MOTOR_FORWARD
  | OKVC_MOTOR_BACKWARD
  | OKVC_ENC_FORWARD
  | OKVC_ENC_BACKWARD
  | OKVC_SPRAY_PRE
  | OKVC_SPRAY_SPRAY
  | OKVC_SPRAY_POST
  | OKVC_PREC_VALVE_ADC
  | OKVC_PREC_VALVE_TKS
  deriving DecidableEq

open okvc_state

/-! ## Hardware access layer

The GPIO, PWM and hrtimer services are kernel code outside
`drivers/misc/okvc.c`; the driver only calls them. -/

/-- Levels of the six output lines listed in `okvc_gpios`. -/
structure gpio_levels where
  sleep_1 : Bool
  dir_1 : Bool
  mode_1_1 : Bool
  txs_oe : Bool
  txs1 : Bool
  txs2 : Bool
  deriving DecidableEq

/-- Modelled from the spec: `gpio_set_value` is missing from the sources; it is
the `setOutput(line, level)` service of the hardware access layer.  A non-zero
value drives the line high; a line that is not one of the outputs of
`okvc_gpios` is left alone. -/
def gpio_set_value (g : gpio_levels) (line : Nat) (value : Int) : gpio_levels :=
  if line = SLEEP_1 then { g with sleep_1 := decide (value ≠ 0) }
  else if line = DIR_1 then { g with dir_1 := decide (value ≠ 0) }
  else if line = MODE_1_1 then { g with mode_1_1 := decide (value ≠ 0) }
  else if line = TXS_OE then { g with txs_oe := decide (value ≠ 0) }
  else if line = TXS1 then { g with txs1 := decide (value ≠ 0) }
  else if line = TXS2 then { g with txs2 := decide (value ≠ 0) }
  else g

/-- Modelled from the spec: `gpio_get_value` is missing from the sources; it is
the `readInput(line) -> level` service, here reading back an output line. -/
def gpio_get_value (g : gpio_levels) (line : Nat) : Int :=
  let level :=
    if line = SLEEP_1 then g.sleep_1
    else if line = DIR_1 then g.dir_1
    else if line = MODE_1_1 then g.mode_1_1
    else if line = TXS_OE then g.txs_oe
    else if line = TXS1 then g.txs1
    else if line = TXS2 then g.txs2
    else false
  if level then 1 else 0

/-- The PWM channel behind `okvc_->pwm`: the configuration last accepted, and
the error code the device answers to a configure or enable request (0 when the
request is accepted). -/
structure pwm_device where
  duty_ns : Int
  period_ns : Int
  enabled : Bool
  config_err : Int
  enable_err : Int
  deriving DecidableEq

/-- Modelled from the spec: `pwm_config` is missing from the sources; it is the
`configurePwm(dutyNs, periodNs)` service, which may fail (section 7 (d)).  A
refused request leaves the channel as it was. -/
def pwm_config (pwm : pwm_device) (duty_ns period_ns : Int) : pwm_device × Int :=
  if pwm.config_err ≠ 0 then (pwm, pwm.config_err)
  else ({ pwm with duty_ns := duty_ns, period_ns := period_ns }, 0)

/-- Modelled from the spec: `pwm_enable` is missing from the sources; it is the
`enablePwm()` service, which may fail. -/
def pwm_enable (pwm : pwm_device) : pwm_device × Int :=
  if pwm.enable_err ≠ 0 then (pwm, pwm.enable_err)
  else ({ pwm with enabled := true }, 0)

/-- The countdown `okvc_->timer`: its deadline (milliseconds on the monotonic
clock) and whether it is queued, that is, whether the deadline is pending. -/
structure hrtimer where
  expires : Int
  enqueued : Bool
  deriving DecidableEq

/-- The `enum hrtimer_restart` a timer callback answers with. -/
inductive hrtimer_restart
  | HRTIMER_NORESTART
  | HRTIMER_RESTART
  deriving DecidableEq

open hrtimer_restart

/-- Milliseconds to `ktime_t`; the model keeps `ktime_t` in milliseconds. -/
def ms_to_ktime (ms : Int) : Int := ms

/-- Modelled from the spec: `hrtimer_start` is missing from the sources; with
`HRTIMER_MODE_REL` it (re)arms the single-shot countdown to expire `tim` after
the current time `now`, replacing any pending deadline. -/
def hrtimer_start (_timer : hrtimer) (now tim : Int) : hrtimer :=
  { expires := now + tim, enqueued := true }

/-- Modelled from the spec: `hrtimer_cancel` is missing from the sources; it
cancels the pending deadline, if any. -/
def hrtimer_cancel (timer : hrtimer) : hrtimer :=
  { timer with enqueued := false }

/-- Modelled from the spec: `hrtimer_forward_now` is missing from the sources;
the rearm is "forward from last deadline", not "forward from now": the deadline
moves on by `interval` from the deadline that just expired. -/
def hrtimer_forward_now (timer : hrtimer) (interval : Int) : hrtimer :=
  { timer with expires := timer.expires + interval }

/-! ## The controller -/

/-- The `struct okvc` of the driver (fields in the order of the source, `pwm`
standing for the device the pointer refers to and `adc_work` for "the work is
scheduled"), followed by the hardware the driver acts on through global
services: the GPIO output levels and the monotonic clock, in milliseconds. -/
structure okvc where
  pos : Int
  irq : Int
  forward_ms : Int
  backward_ms : Int
  forward_cnt : Int
  backward_cnt : Int
  pwm_duty_percentx10 : Int
  reverse_encoder : Int
  spray_pre_ms : Int
  spray_ms : Int
  spray_post_ms : Int
  prec_valve_ms : Int
  adc_average : Int
  adc_average_start_ms : Int
  run_motor : Int
  run_motor_enc : Int
  run_spray : Int
  run_prec_valve : Int
  forward : Int
  backward : Int
  pwm : pwm_device
  state : okvc_state
  timer : hrtimer
  adc_work : Bool
  gpio : gpio_levels
  now : Int
  deriving DecidableEq

/-- The `static int pwm_period = 500000;` of the driver (nanoseconds). -/
def pwm_period : Int := 500000

/-- `okvc_pwm_high`: drive the PWM at full period. -/
def okvc_pwm_high (okvc_ : okvc) : okvc × Int :=
  let r := pwm_config okvc_.pwm pwm_period pwm_period
  ({ okvc_ with pwm := r.1 }, r.2)

/-- `okvc_pwm_config`: program the duty computed from `pwm_duty_percentx10`
and enable the PWM; the first failing call ends the function with its code. -/
def okvc_pwm_config (okvc_ : okvc) : okvc × Int :=
  let pwm_duty_ns := Int.tdiv (to_int (okvc_.pwm_duty_percentx10 * pwm_period)) 1000
  let r := pwm_config okvc_.pwm pwm_duty_ns pwm_period
  let okvc_ := { okvc_ with pwm := r.1 }
  if r.2 ≠ 0 then (okvc_, r.2)
  else
    let r := pwm_enable okvc_.pwm
    let okvc_ := { okvc_ with pwm := r.1 }
    if r.2 ≠ 0 then (okvc_, r.2)
    else (okvc_, 0)

def SETUP_MOTOR_BRAKE : Nat := 0
def SETUP_MOTOR_CW : Nat := 1
def SETUP_MOTOR_CCW : Nat := 2

/-- `setup_motor`: brake, clockwise or counter-clockwise drive.  The results of
the PWM calls are dropped, as in the source (the function is `void`). -/
def setup_motor (okvc_ : okvc) (state : Nat) : okvc :=
  if state = SETUP_MOTOR_BRAKE then
    let okvc_ := (okvc_pwm_high okvc_).1
    let okvc_ := { okvc_ with gpio := gpio_set_value okvc_.gpio MODE_1_1 1 }
    { okvc_ with gpio := gpio_set_value okvc_.gpio DIR_1 0 }
  else if state = SETUP_MOTOR_CW then
    let okvc_ := (okvc_pwm_config okvc_).1
    let okvc_ := { okvc_ with gpio := gpio_set_value okvc_.gpio MODE_1_1 0 }
    { okvc_ with gpio := gpio_set_value okvc_.gpio DIR_1 0 }
  else if state = SETUP_MOTOR_CCW then
    let okvc_ := (okvc_pwm_config okvc_).1
    let okvc_ := { okvc_ with gpio := gpio_set_value okvc_.gpio MODE_1_1 0 }
    { okvc_ with gpio := gpio_set_value okvc_.gpio DIR_1 1 }
  else okvc_

/-! ## The run attributes

Each store receives `val`, the number `simple_strtoul` parsed from the written
text (an `unsigned long`, so never negative), and `count`, the length of the
text; it answers `count`.  The C local `int run_` is `val` narrowed to `int`. -/

/-- The `run_motor_enc_store` attribute store. -/
def run_motor_enc_store (okvc_ : okvc) (val : Int) (count : Nat) : okvc × Int :=
  let run_ := to_int val
  if run_ ≠ 0 ∧ okvc_.state ≠ OKVC_IDLE then
    (okvc_, count)
  else
    let okvc_ :=
      if run_ ≠ 0 ∧ okvc_.run_motor_enc = 0 then
        let okvc_ := { okvc_ with pos := 0 }
        let okvc_ := { okvc_ with gpio := gpio_set_value okvc_.gpio TXS1 1 }
        let okvc_ := setup_motor okvc_ SETUP_MOTOR_CW
        { okvc_ with state := OKVC_ENC_FORWARD }
      else if run_ = 0 then
        let okvc_ := { okvc_ with gpio := gpio_set_value okvc_.gpio TXS1 0 }
        let okvc_ := setup_motor okvc_ SETUP_MOTOR_BRAKE
        { okvc_ with state := OKVC_IDLE }
      else okvc_
    ({ okvc_ with run_motor_enc := run_ }, count)

/-- The `run_motor_store` attribute store. -/
def run_motor_store (okvc_ : okvc) (val : Int) (count : Nat) : okvc × Int :=
  let run_ := to_int val
  if run_ ≠ 0 ∧ okvc_.state ≠ OKVC_IDLE then
    (okvc_, count)
  else
    let okvc_ :=
      if run_ ≠ 0 ∧ okvc_.run_motor = 0 then
        let okvc_ := { okvc_ with pos := 0 }
        let okvc_ := { okvc_ with gpio := gpio_set_value okvc_.gpio TXS1 1 }
        let okvc_ := setup_motor okvc_ SETUP_MOTOR_CW
        let okvc_ := { okvc_ with
          timer := hrtimer_start okvc_.timer okvc_.now (ms_to_ktime okvc_.forward_ms) }
        { okvc_ with state := OKVC_MOTOR_FORWARD }
      else if run_ = 0 then
        let okvc_ := { okvc_ with timer := hrtimer_cancel okvc_.timer }
        let okvc_ := { okvc_ with gpio := gpio_set_value okvc_.gpio TXS1 0 }
        let okvc_ := setup_motor okvc_ SETUP_MOTOR_BRAKE
        { okvc_ with state := OKVC_IDLE }
      else okvc_
    ({ okvc_ with run_motor := run_ }, count)

/-- The `run_spray_store` attribute store. -/
def run_spray_store (okvc_ : okvc) (val : Int) (count : Nat) : okvc × Int :=
  let run_ := to_int val
  if run_ ≠ 0 ∧ okvc_.state ≠ OKVC_IDLE then
    (okvc_, count)
  else
    let okvc_ :=
      if run_ ≠ 0 ∧ okvc_.run_spray = 0 then
        let okvc_ := { okvc_ with gpio := gpio_set_value okvc_.gpio TXS2 1 }
        let okvc_ := { okvc_ with
          timer := hrtimer_start okvc_.timer okvc_.now (ms_to_ktime okvc_.spray_pre_ms) }
        { okvc_ with state := OKVC_SPRAY_PRE }
      else if run_ = 0 then
        let okvc_ := { okvc_ with timer := hrtimer_cancel okvc_.timer }
        let okvc_ := { okvc_ with gpio := gpio_set_value okvc_.gpio TXS1 0 }
        let okvc_ := { okvc_ with gpio := gpio_set_value okvc_.gpio TXS2 0 }
        { okvc_ with state := OKVC_IDLE }
      else okvc_
    ({ okvc_ with run_spray := run_ }, count)

/-- The `run_prec_valve_store` attribute store. -/
def run_prec_valve_store (okvc_ : okvc) (val : Int) (count : Nat) : okvc × Int :=
  let run_ := to_int val
  if okvc_.prec_valve_ms < 10 then
    (okvc_, count)
  else if run_ ≠ 0 ∧ okvc_.state ≠ OKVC_IDLE then
    (okvc_, count)
  else
    let okvc_ :=
      if run_ ≠ 0 ∧ okvc_.run_prec_valve = 0 then
        let okvc_ := { okvc_ with gpio := gpio_set_value okvc_.gpio TXS1 1 }
        let okvc_ := { okvc_ with
          timer := hrtimer_start okvc_.timer okvc_.now (ms_to_ktime okvc_.adc_average_start_ms) }
        let okvc_ := { okvc_ with state := OKVC_PREC_VALVE_ADC }
        { okvc_ with adc_average := 0 }
      else if run_ = 0 then
        let okvc_ := { okvc_ with timer := hrtimer_cancel okvc_.timer }
        let okvc_ := { okvc_ with gpio := gpio_set_value okvc_.gpio TXS1 0 }
        { okvc_ with state := OKVC_IDLE }
      else okvc_
    ({ okvc_ with run_prec_valve := run_ }, count)

/-! ## The parameter attributes -/

def forward_cnt_store (okvc_ : okvc) (val : Int) (count : Nat) : okvc × Int :=
  ({ okvc_ with forward_cnt := to_int val }, count)

def backward_cnt_store (okvc_ : okvc) (val : Int) (count : Nat) : okvc × Int :=
  ({ okvc_ with backward_cnt := to_int val }, count)

/-- The `pwm_store` attribute store: the new duty is programmed at once. -/
def pwm_store (okvc_ : okvc) (val : Int) (count : Nat) : okvc × Int :=
  let okvc_ := { okvc_ with pwm_duty_percentx10 := to_int val }
  ((okvc_pwm_config okvc_).1, count)

def reverse_encoder_store (okvc_ : okvc) (val : Int) (count : Nat) : okvc × Int :=
  ({ okvc_ with reverse_encoder := to_int val }, count)

/-- The `forward_store` attribute store (manual drive). -/
def forward_store (okvc_ : okvc) (val : Int) (count : Nat) : okvc × Int :=
  let forward := to_int val
  if forward ≠ 0 ∧ okvc_.state ≠ OKVC_IDLE then
    (okvc_, count)
  else
    let okvc_ :=
      if forward ≠ 0 then
        let okvc_ := { okvc_ with gpio := gpio_set_value okvc_.gpio TXS1 1 }
        setup_motor okvc_ SETUP_MOTOR_CW
      else
        setup_motor okvc_ SETUP_MOTOR_BRAKE
    ({ okvc_ with forward := forward }, count)

/-- The `backward_store` attribute store (manual drive). -/
def backward_store (okvc_ : okvc) (val : Int) (count : Nat) : okvc × Int :=
  let backward := to_int val
  if okvc_.state ≠ OKVC_IDLE then
    (okvc_, count)
  else
    let okvc_ :=
      if backward ≠ 0 then
        setup_motor okvc_ SETUP_MOTOR_CCW
      else
        setup_motor okvc_ SETUP_MOTOR_BRAKE
    ({ okvc_ with backward := backward }, count)

def spray_pre_ms_store (okvc_ : okvc) (val : Int) (count : Nat) : okvc × Int :=
  ({ okvc_ with spray_pre_ms := to_int val }, count)

def spray_ms_store (okvc_ : okvc) (val : Int) (count : Nat) : okvc × Int :=
  ({ okvc_ with spray_ms := to_int val }, count)

def spray_post_ms_store (okvc_ : okvc) (val : Int) (count : Nat) : okvc × Int :=
  ({ okvc_ with spray_post_ms := to_int val }, count)

def prec_valve_ms_store (okvc_ : okvc) (val : Int) (count : Nat) : okvc × Int :=
  ({ okvc_ with prec_valve_ms := to_int val }, count)

def adc_average_start_ms_store (okvc_ : okvc) (val : Int) (count : Nat) : okvc × Int :=
  ({ okvc_ with adc_average_start_ms := to_int val }, count)

def forward_ms_store (okvc_ : okvc) (val : Int) (count : Nat) : okvc × Int :=
  ({ okvc_ with forward_ms := to_int val }, count)

def backward_ms_store (okvc_ : okvc) (val : Int) (count : Nat) : okvc × Int :=
  ({ okvc_ with backward_ms := to_int val }, count)

/-! ## The encoder interrupt, the deferred ADC work and the timer callback -/

/-- The `IRQ_HANDLED` answer of an interrupt handler. -/
def IRQ_HANDLED : Int := 1

/-- The `okvc_irq` handler, run once per falling edge of encoder channel A.  The
increment of `pos` is an `int` increment. -/
def okvc_irq (okvc_ : okvc) : okvc × Int :=
  let okvc_ := { okvc_ with pos := to_int (okvc_.pos + 1) }
  match okvc_.state with
  | OKVC_ENC_FORWARD =>
    if okvc_.pos > okvc_.forward_cnt then
      let okvc_ := setup_motor okvc_ SETUP_MOTOR_BRAKE
      let okvc_ := { okvc_ with gpio := gpio_set_value okvc_.gpio TXS1 0 }
      let okvc_ := { okvc_ with pos := 0 }
      let okvc_ := setup_motor okvc_ SETUP_MOTOR_CCW
      let okvc_ := { okvc_ with state := OKVC_ENC_BACKWARD }
      let r := pwm_enable okvc_.pwm
      let okvc_ := { okvc_ with pwm := r.1 }
      if r.2 ≠ 0 then (okvc_, r.2)
      else (okvc_, IRQ_HANDLED)
    else (okvc_, IRQ_HANDLED)
  | OKVC_ENC_BACKWARD =>
    if okvc_.pos > okvc_.backward_cnt then
      let okvc_ := setup_motor okvc_ SETUP_MOTOR_BRAKE
      let okvc_ := { okvc_ with state := OKVC_IDLE }
      let okvc_ := { okvc_ with run_motor_enc := 0 }
      (okvc_, IRQ_HANDLED)
    else (okvc_, IRQ_HANDLED)
  | _ => (okvc_, IRQ_HANDLED)

/-- The `handle_adc_work` task.  `vf610_read_raw_internal` is not part of the
driver: `adc i` is what its `i`-th call (channel 8) returns.  The sum is an
`int` sum, the division the truncating C division.  The second component says
whether the "ADC did not finish before TXS1 went low" warning is printed. -/
def handle_adc_work (okvc_ : okvc) (adc : Nat → Int) : okvc × Bool :=
  let adc_total := (List.range 8).foldl (fun total i => to_int (total + adc i)) 0
  let okvc_ := { okvc_ with adc_average := Int.tdiv adc_total 8 }
  (okvc_, decide (gpio_get_value okvc_.gpio TXS1 = 0))

/-- The `okvc_timer_callback` function of the timer. -/
def okvc_timer_callback (okvc_ : okvc) : okvc × hrtimer_restart :=
  match okvc_.state with
  | OKVC_MOTOR_FORWARD =>
    let okvc_ := setup_motor okvc_ SETUP_MOTOR_CCW
    let okvc_ := { okvc_ with gpio := gpio_set_value okvc_.gpio TXS1 0 }
    let okvc_ := { okvc_ with
      timer := hrtimer_forward_now okvc_.timer (ms_to_ktime okvc_.backward_ms) }
    ({ okvc_ with state := OKVC_MOTOR_BACKWARD }, HRTIMER_RESTART)
  | OKVC_MOTOR_BACKWARD =>
    let okvc_ := setup_motor okvc_ SETUP_MOTOR_BRAKE
    let okvc_ := { okvc_ with run_motor := 0 }
    ({ okvc_ with state := OKVC_IDLE }, HRTIMER_NORESTART)
  | OKVC_SPRAY_PRE =>
    let okvc_ := { okvc_ with gpio := gpio_set_value okvc_.gpio TXS1 1 }
    let okvc_ := { okvc_ with
      timer := hrtimer_forward_now okvc_.timer (ms_to_ktime okvc_.spray_ms) }
    ({ okvc_ with state := OKVC_SPRAY_SPRAY }, HRTIMER_RESTART)
  | OKVC_SPRAY_SPRAY =>
    let okvc_ := { okvc_ with gpio := gpio_set_value okvc_.gpio TXS1 0 }
    let okvc_ := { okvc_ with
      timer := hrtimer_forward_now okvc_.timer (ms_to_ktime okvc_.spray_post_ms) }
    ({ okvc_ with state := OKVC_SPRAY_POST }, HRTIMER_RESTART)
  | OKVC_SPRAY_POST =>
    let okvc_ := { okvc_ with gpio := gpio_set_value okvc_.gpio TXS2 0 }
    let okvc_ := { okvc_ with state := OKVC_IDLE }
    ({ okvc_ with run_spray := 0 }, HRTIMER_NORESTART)
  | OKVC_PREC_VALVE_ADC =>
    let okvc_ := { okvc_ with adc_work := true }
    let okvc_ := { okvc_ with state := OKVC_PREC_VALVE_TKS }
    let okvc_ := { okvc_ with
      timer := hrtimer_forward_now okvc_.timer
        (ms_to_ktime (to_int (okvc_.prec_valve_ms - okvc_.adc_average_start_ms))) }
    (okvc_, HRTIMER_RESTART)
  | OKVC_PREC_VALVE_TKS =>
    let okvc_ := { okvc_ with gpio := gpio_set_value okvc_.gpio TXS1 0 }
    let okvc_ := { okvc_ with state := OKVC_IDLE }
    ({ okvc_ with run_prec_valve := 0 }, HRTIMER_NORESTART)
  | _ => (okvc_, HRTIMER_NORESTART)

/-- Modelled from the spec: the hrtimer core that calls the callback is missing
from the sources.  The countdown is single-shot: when a deadline is pending the
clock reaches it, the timer leaves the queue, the callback is invoked once, at
the deadline, and the timer is queued again exactly when the callback answers
`HRTIMER_RESTART`.  Without a pending deadline nothing happens. -/
def hrtimer_expire (okvc_ : okvc) : okvc :=
  if okvc_.timer.enqueued then
    let okvc_ := { okvc_ with now := max okvc_.now okvc_.timer.expires }
    let okvc_ := { okvc_ with timer := { okvc_.timer with enqueued := false } }
    let r := okvc_timer_callback okvc_
    if r.2 = HRTIMER_RESTART then
      { r.1 with timer := { r.1.timer with enqueued := true } }
    else r.1
  else okvc_

/-- Modelled from the spec: the work queue that runs the deferred sampling task
is missing from the sources.  A scheduled work is taken off the queue and
`handle_adc_work` runs once; nothing happens when no work is scheduled. -/
def run_adc_work (okvc_ : okvc) (adc : Nat → Int) : okvc :=
  if okvc_.adc_work then
    (handle_adc_work { okvc_ with adc_work := false } adc).1
  else okvc_

/-! ## Device attach -/

def ENOMEM : Int := 12
def EINVAL : Int := 22

/-- The `okvc_probe` function.  The outcomes of the kernel services it calls are
its parameters: whether `kzalloc` succeeded, the codes of `gpio_request_array`,
`request_irq` (with the interrupt number `gpio_to_irq` gave) and
`sysfs_create_group`, the PWM `pwm_get` found (`none` for an error pointer) and
the clock.  The answer is the controller bound to the device, if any, and the
return code.  The levels of the lines are the initial levels of `okvc_gpios`. -/
def okvc_probe (kzalloc_ok : Bool) (gpio_ret irq_no irq_ret sysfs_ret : Int)
    (pwm : Option pwm_device) (now : Int) : Option okvc × Int :=
  if !kzalloc_ok then (none, -ENOMEM)
  else if gpio_ret ≠ 0 then (none, -EINVAL)
  else if irq_ret ≠ 0 then (none, -EINVAL)
  else if sysfs_ret ≠ 0 then (none, -EINVAL)
  else
    match pwm with
    | none => (none, -EINVAL)
    | some pwm =>
      let okvc_ : okvc :=
        { pos := 0, irq := irq_no,
          forward_ms := 33, backward_ms := 66,
          forward_cnt := 100, backward_cnt := 50,
          pwm_duty_percentx10 := 550, reverse_encoder := 0,
          spray_pre_ms := 50, spray_ms := 100, spray_post_ms := 75,
          prec_valve_ms := 50, adc_average := 0, adc_average_start_ms := 10,
          run_motor := 0, run_motor_enc := 0, run_spray := 0, run_prec_valve := 0,
          forward := 0, backward := 0,
          pwm := pwm, state := OKVC_IDLE,
          timer := { expires := 0, enqueued := false },
          adc_work := false,
          gpio := { sleep_1 := true, dir_1 := false, mode_1_1 := true,
                    txs_oe := true, txs1 := false, txs2 := false },
          now := now }
      let r := okvc_pwm_config okvc_
      (some r.1, r.2)

/-! ## The controller as a transition system -/

/-- A healthy, not yet configured PWM channel. -/
def pwm_fresh : pwm_device :=
  { duty_ns := 0, period_ns := 0, enabled := false, config_err := 0, enable_err := 0 }

/-- The controller a successful `okvc_probe` binds to the device at time 0, on
interrupt 0 and with the channel `pwm_fresh` (see `okvc_probe_attached`). -/
def okvc_attached : okvc :=
  { pos := 0, irq := 0,
    forward_ms := 33, backward_ms := 66,
    forward_cnt := 100, backward_cnt := 50,
    pwm_duty_percentx10 := 550, reverse_encoder := 0,
    spray_pre_ms := 50, spray_ms := 100, spray_post_ms := 75,
    prec_valve_ms := 50, adc_average := 0, adc_average_start_ms := 10,
    run_motor := 0, run_motor_enc := 0, run_spray := 0, run_prec_valve := 0,
    forward := 0, backward := 0,
    pwm := { duty_ns := 275000, period_ns := 500000, enabled := true,
             config_err := 0, enable_err := 0 },
    state := OKVC_IDLE,
    timer := { expires := 0, enqueued := false },
    adc_work := false,
    gpio := { sleep_1 := true, dir_1 := false, mode_1_1 := true,
              txs_oe := true, txs1 := false, txs2 := false },
    now := 0 }

/-- The events that drive the controller: a write to one of the attributes
(with the parsed value and the length of the text), the expiry of the pending
timer deadline, a falling edge of the encoder, a run of the scheduled ADC work
(with the samples the ADC returns). -/
inductive okvc_event
  | write_run_motor (val : Int) (count : Nat)
  | write_run_motor_enc (val : Int) (count : Nat)
  | write_run_spray (val : Int) (count : Nat)
  | write_run_prec_valve (val : Int) (count : Nat)
  | timer_expiry
  | encoder_pulse
  | adc_work_run (adc : Nat → Int)
  | write_forward_cnt (val : Int) (count : Nat)
  | write_backward_cnt (val : Int) (count : Nat)
  | write_pwm (val : Int) (count : Nat)
  | write_reverse_encoder (val : Int) (count : Nat)
  | write_forward (val : Int) (count : Nat)
  | write_backward (val : Int) (count : Nat)
  | write_spray_pre_ms (val : Int) (count : Nat)
  | write_spray_ms (val : Int) (count : Nat)
  | write_spray_post_ms (val : Int) (count : Nat)
  | write_prec_valve_ms (val : Int) (count : Nat)
  | write_adc_average_start_ms (val : Int) (count : Nat)
  | write_forward_ms (val : Int) (count : Nat)
  | write_backward_ms (val : Int) (count : Nat)

open okvc_event

/-- The controller after one event. -/
def okvc_step (okvc_ : okvc) : okvc_event → okvc
  | write_run_motor val count => (run_motor_store okvc_ val count).1
  | write_run_motor_enc val count => (run_motor_enc_store okvc_ val count).1
  | write_run_spray val count => (run_spray_store okvc_ val count).1
  | write_run_prec_valve val count => (run_prec_valve_store okvc_ val count).1
  | timer_expiry => hrtimer_expire okvc_
  | encoder_pulse => (okvc_irq okvc_).1
  | adc_work_run adc => run_adc_work okvc_ adc
  | write_forward_cnt val count => (forward_cnt_store okvc_ val count).1
  | write_backward_cnt val count => (backward_cnt_store okvc_ val count).1
  | write_pwm val count => (pwm_store okvc_ val count).1
  | write_reverse_encoder val count => (reverse_encoder_store okvc_ val count).1
  | write_forward val count => (forward_store okvc_ val count).1
  | write_backward val count => (backward_store okvc_ val count).1
  | write_spray_pre_ms val count => (spray_pre_ms_store okvc_ val count).1
  | write_spray_ms val count => (spray_ms_store okvc_ val count).1
  | write_spray_post_ms val count => (spray_post_ms_store okvc_ val count).1
  | write_prec_valve_ms val count => (prec_valve_ms_store okvc_ val count).1
  | write_adc_average_start_ms val count => (adc_average_start_ms_store okvc_ val count).1
  | write_forward_ms val count => (forward_ms_store okvc_ val count).1
  | write_backward_ms val count => (backward_ms_store okvc_ val count).1

/-- The controller after a finite sequence of events, first event first. -/
def okvc_run (okvc_ : okvc) (events : List okvc_event) : okvc :=
  events.foldl okvc_step okvc_

/-- The controller after `n` encoder pulses. -/
def okvc_pulses : Nat → okvc → okvc
  | 0, okvc_ => okvc_
  | n + 1, okvc_ => (okvc_irq (okvc_pulses n okvc_)).1

/-- The four actuator cycles, one per run attribute. -/
inductive okvc_family
  | motor
  | motor_enc
  | spray
  | prec_valve
  deriving DecidableEq

/-- The cycle a mode belongs to; `OKVC_IDLE` belongs to none. -/
def family_of : okvc_state → Option okvc_family
  | OKVC_IDLE => none
  | OKVC_MOTOR_FORWARD => some .motor
  | OKVC_MOTOR_BACKWARD => some .motor
  | OKVC_ENC_FORWARD => some .motor_enc
  | OKVC_ENC_BACKWARD => some .motor_enc
  | OKVC_SPRAY_PRE => some .spray
  | OKVC_SPRAY_SPRAY => some .spray
  | OKVC_SPRAY_POST => some .spray
  | OKVC_PREC_VALVE_ADC => some .prec_valve
  | OKVC_PREC_VALVE_TKS => some .prec_valve

/-- The run flag of a cycle. -/
def run_flag (okvc_ : okvc) : okvc_family → Int
  | .motor => okvc_.run_motor
  | .motor_enc => okvc_.run_motor_enc
  | .spray => okvc_.run_spray
  | .prec_valve => okvc_.run_prec_valve

/-- All four run flags are false. -/
def run_flags_clear (okvc_ : okvc) : Prop :=
  okvc_.run_motor = 0 ∧ okvc_.run_motor_enc = 0 ∧ okvc_.run_spray = 0 ∧
    okvc_.run_prec_valve = 0

instance (okvc_ : okvc) : Decidable (run_flags_clear okvc_) := by
  unfold run_flags_clear; infer_instance

/-- The cycle a stop command is addressed to: the event writes a value that
narrows to 0 to the run attribute of that cycle. -/
def stop_target : okvc_event → Option okvc_family
  | write_run_motor val _ => if to_int val = 0 then some .motor else none
  | write_run_motor_enc val _ => if to_int val = 0 then some .motor_enc else none
  | write_run_spray val _ => if to_int val = 0 then some .spray else none
  | write_run_prec_valve val _ => if to_int val = 0 then some .prec_valve else none
  | _ => none

/-- A stop command is on target when the controller is idle or runs the cycle
the command is addressed to; every other event is on target. -/
def on_target (okvc_ : okvc) (e : okvc_event) : Prop :=
  match stop_target e with
  | none => True
  | some f => okvc_.state = OKVC_IDLE ∨ family_of okvc_.state = some f

instance (okvc_ : okvc) (e : okvc_event) : Decidable (on_target okvc_ e) := by
  unfold on_target
  cases stop_target e <;> infer_instance

/-- Every stop command of the sequence is on target when it arrives. -/
def stops_on_target : okvc → List okvc_event → Prop
  | _, [] => True
  | okvc_, e :: es => on_target okvc_ e ∧ stops_on_target (okvc_step okvc_ e) es

/-- Whether every stop command of a sequence is on target can be computed. -/
def stops_on_target_dec : (okvc_ : okvc) → (es : List okvc_event) →
    Decidable (stops_on_target okvc_ es)
  | _, [] => isTrue trivial
  | okvc_, e :: es =>
    @instDecidableAnd _ _ inferInstance (stops_on_target_dec (okvc_step okvc_ e) es)

instance (okvc_ : okvc) (es : List okvc_event) : Decidable (stops_on_target okvc_ es) :=
  stops_on_target_dec okvc_ es

/-- The run flag of the active cycle is set: in a mode other than Idle the flag
of the cycle the mode belongs to is truthy. -/
def active_flag_set (okvc_ : okvc) : Prop :=
  ∀ f, family_of okvc_.state = some f → run_flag okvc_ f ≠ 0

/-- Only the active cycle has its run flag set: a truthy flag is the flag of the
cycle the mode belongs to (so in Idle no flag is truthy). -/
def set_flags_active (okvc_ : okvc) : Prop :=
  ∀ f, run_flag okvc_ f ≠ 0 → family_of okvc_.state = some f

/-- What one event can do to the mode and the run flags, seen from outside:
the controller stays within the cycle it is in or stays idle, with the flags
untouched (`within`); it starts a cycle from Idle (`start`); a truthy write
finds the idle controller with the flag already set and only overwrites the
flag (`stale`); a stop command forces Idle and clears the flag of the attribute
written (`stop`); the active cycle runs to completion (`complete`). -/
inductive okvc_move (s : okvc) (e : okvc_event) (t : okvc) : Prop
  | within (hfam : family_of t.state = family_of s.state)
      (hflags : ∀ g, run_flag t g = run_flag s g)
  | start (f : okvc_family) (hidle : s.state = OKVC_IDLE) (hfam : family_of t.state = some f)
      (hset : run_flag t f ≠ 0) (hflags : ∀ g, g ≠ f → run_flag t g = run_flag s g)
  | stale (f : okvc_family) (hidle : s.state = OKVC_IDLE) (hidle' : t.state = OKVC_IDLE)
      (hwas : run_flag s f ≠ 0)
  | stop (f : okvc_family) (htarget : stop_target e = some f) (hidle : t.state = OKVC_IDLE)
      (hclear : run_flag t f = 0) (hflags : ∀ g, g ≠ f → run_flag t g = run_flag s g)
  | complete (f : okvc_family) (hfam : family_of s.state = some f)
      (hidle : t.state = OKVC_IDLE) (hclear : run_flag t f = 0)
      (hflags : ∀ g, g ≠ f → run_flag t g = run_flag s g)

/-- An encoder cycle started on the attached controller after 2 was written to
`forward_cnt`. -/
def enc_forward_short : okvc :=
  okvc_run okvc_attached [write_forward_cnt 2 2, write_run_motor_enc 1 2]

/-- An encoder cycle started on the attached controller after 2147483647, the
largest `int`, was written to `forward_cnt`. -/
def enc_forward_int_max : okvc :=
  okvc_run okvc_attached [write_forward_cnt 2147483647 11, write_run_motor_enc 1 2]

/-- An encoder cycle on the attached controller that has just reversed (one
pulse with `forward_cnt` = 0), with `backward_cnt` = 2. -/
def enc_backward_short : okvc :=
  okvc_run okvc_attached
    [write_forward_cnt 0 2, write_backward_cnt 2 2, write_run_motor_enc 1 2, encoder_pulse]

/-- An encoder cycle on the attached controller that has just reversed (one
pulse with `forward_cnt` = 0), with `backward_cnt` = 2147483647. -/
def enc_backward_int_max : okvc :=
  okvc_run okvc_attached
    [write_forward_cnt 0 2, write_backward_cnt 2147483647 11, write_run_motor_enc 1 2,
      encoder_pulse]

/-- The actions of the action column of the transition table of section 4.2 of
the spec, in its words.  "Deassert enable line" is listed twice there, for the
spray enable line and for the enable line of the precision valve. -/
inductive table_action
  | reverse_direction
  | deassert_output_enable
  | assert_brake
  | clear_run_motor
  | assert_spray_active
  | deassert_spray_active
  | deassert_spray_enable
  | clear_run_spray
  | schedule_sampling
  | deassert_valve_enable
  | clear_run_prec_valve
  deriving DecidableEq

/-- What an action of the table does to the controller, written from the words
of sections 4.1, 4.2 and 4.4 of the spec.  The lines behind the names: the
brake/mode line is `MODE_1_1`, the direction line `DIR_1`, the output-enable
line of the motor, the spray-active line and the enable line of the precision
valve are all `TXS1`, the spray enable line is `TXS2`.  Reversing the
direction drives the PWM at the computed duty (the duty conversion of the
driver, `okvc_pwm_config`), releases the brake and sets the direction line;
asserting the brake drives the PWM at full period, raises the brake/mode line
and lowers the direction line. -/
def spec_action (okvc_ : okvc) : table_action → okvc
  | .reverse_direction =>
    { okvc_ with
      pwm := (okvc_pwm_config okvc_).1.pwm
      gpio := gpio_set_value (gpio_set_value okvc_.gpio MODE_1_1 0) DIR_1 1 }
  | .deassert_output_enable => { okvc_ with gpio := gpio_set_value okvc_.gpio TXS1 0 }
  | .assert_brake =>
    { okvc_ with
      pwm := (pwm_config okvc_.pwm pwm_period pwm_period).1
      gpio := gpio_set_value (gpio_set_value okvc_.gpio MODE_1_1 1) DIR_1 0 }
  | .clear_run_motor => { okvc_ with run_motor := 0 }
  | .assert_spray_active => { okvc_ with gpio := gpio_set_value okvc_.gpio TXS1 1 }
  | .deassert_spray_active => { okvc_ with gpio := gpio_set_value okvc_.gpio TXS1 0 }
  | .deassert_spray_enable => { okvc_ with gpio := gpio_set_value okvc_.gpio TXS2 0 }
  | .clear_run_spray => { okvc_ with run_spray := 0 }
  | .schedule_sampling => { okvc_ with adc_work := true }
  | .deassert_valve_enable => { okvc_ with gpio := gpio_set_value okvc_.gpio TXS1 0 }
  | .clear_run_prec_valve => { okvc_ with run_prec_valve := 0 }

/-- One row of the transition table of section 4.2 of the spec: the actions of
the action column, the interval the countdown is rearmed for (`none` for "—")
and the next mode. -/
structure table_row where
  actions : List table_action
  rearm : Option Int
  next : okvc_state
  deriving DecidableEq

/-- The transition table of section 4.2 of the spec, written from its words:
the row of the current mode, `none` for a mode the table does not list.  The
interval of the PrecValveSampling row is the plain difference
`precisionValveMs − adcSampleStartMs`. -/
def spec_table (okvc_ : okvc) : Option table_row :=
  match okvc_.state with
  | OKVC_MOTOR_FORWARD =>
    some { actions := [.reverse_direction, .deassert_output_enable],
           rearm := some okvc_.backward_ms, next := OKVC_MOTOR_BACKWARD }
  | OKVC_MOTOR_BACKWARD =>
    some { actions := [.assert_brake, .clear_run_motor],
           rearm := none, next := OKVC_IDLE }
  | OKVC_SPRAY_PRE =>
    some { actions := [.assert_spray_active],
           rearm := some okvc_.spray_ms, next := OKVC_SPRAY_SPRAY }
  | OKVC_SPRAY_SPRAY =>
    some { actions := [.deassert_spray_active],
           rearm := some okvc_.spray_post_ms, next := OKVC_SPRAY_POST }
  | OKVC_SPRAY_POST =>
    some { actions := [.deassert_spray_enable, .clear_run_spray],
           rearm := none, next := OKVC_IDLE }
  | OKVC_PREC_VALVE_ADC =>
    some { actions := [.schedule_sampling],
           rearm := some (okvc_.prec_valve_ms - okvc_.adc_average_start_ms),
           next := OKVC_PREC_VALVE_TKS }
  | OKVC_PREC_VALVE_TKS =>
    some { actions := [.deassert_valve_enable, .clear_run_prec_valve],
           rearm := none, next := OKVC_IDLE }
  | _ => none

/-- What the spec asks of the handler of the timed-stage driver for a row of the
table: perform the actions of the row in their order, rearm the countdown for
the interval of the row, forward from the last deadline, where one is listed,
and take the next mode; the countdown restarts exactly when an interval is
listed. -/
def spec_callback (okvc_ : okvc) (row : table_row) : okvc × hrtimer_restart :=
  let acted := row.actions.foldl spec_action okvc_
  match row.rearm with
  | some interval =>
    ({ acted with
        timer := hrtimer_forward_now acted.timer (ms_to_ktime interval)
        state := row.next }, HRTIMER_RESTART)
  | none => ({ acted with state := row.next }, HRTIMER_NORESTART)

/-- A precision-valve cycle started on the attached controller after 2147483647
was written to `prec_valve_ms` and 4294967295, which narrows to the `int` -1,
to `adc_average_start_ms`. -/
def prec_valve_wrapping : okvc :=
  okvc_run okvc_attached
    [write_prec_valve_ms 2147483647 11, write_adc_average_start_ms 4294967295 11,
      write_run_prec_valve 1 2]

/-- A precision-valve cycle just started on the attached controller. -/
def prec_valve_sampling : okvc :=
  okvc_run okvc_attached [write_run_prec_valve 1 2]

/-- The attached controller with a PWM channel that refuses every configure and
enable request with `-EINVAL`. -/
def okvc_pwm_refusing : okvc :=
  { okvc_attached with
    pwm := { okvc_attached.pwm with config_err := -EINVAL, enable_err := -EINVAL } }

/-- Eight negative ADC samples, -1, -2, ..., -8: their sum is -36. -/
def adc_ramp (i : Nat) : Int := -((i : Int) + 1)

/-- The idle-safe outputs of the plain motor: the brake is asserted (the
brake/mode line `MODE_1_1` high, the direction line `DIR_1` low, the PWM
programmed at full period), the output-enable line `TXS1` is low and the mode
is Idle. -/
def motor_idle_safe (okvc_ : okvc) : Prop :=
  okvc_.gpio.mode_1_1 = true ∧ okvc_.gpio.dir_1 = false ∧
    okvc_.pwm.duty_ns = pwm_period ∧ okvc_.pwm.period_ns = pwm_period ∧
    okvc_.gpio.txs1 = false ∧ okvc_.state = OKVC_IDLE

instance (okvc_ : okvc) : Decidable (motor_idle_safe okvc_) := by
  unfold motor_idle_safe; infer_instance

/-- A plain motor cycle just started on the attached controller. -/
def motor_forward_running : okvc :=
  okvc_run okvc_attached [write_run_motor 1 2]

/-- The writes of the stop branch (`!run_`) of `run_motor_enc_store`, in the
order of the source, with `setup_motor(okvc_, SETUP_MOTOR_BRAKE)` taken apart
into its three calls, followed by the assignment `okvc_->run_motor_enc = run_`
that ends the store, with `run_` = 0: the output-enable line goes low, the PWM
goes to full period, `MODE_1_1` goes high, `DIR_1` goes low, the mode becomes
Idle, the flag is cleared. -/
def run_motor_enc_stop_steps : List (okvc → okvc) :=
  [ fun okvc_ => { okvc_ with gpio := gpio_set_value okvc_.gpio TXS1 0 },
    fun okvc_ => (okvc_pwm_high okvc_).1,
    fun okvc_ => { okvc_ with gpio := gpio_set_value okvc_.gpio MODE_1_1 1 },
    fun okvc_ => { okvc_ with gpio := gpio_set_value okvc_.gpio DIR_1 0 },
    fun okvc_ => { okvc_ with state := OKVC_IDLE },
    fun okvc_ => { okvc_ with run_motor_enc := 0 } ]

/-- The controller after a list of statements, first statement first. -/
def run_steps (steps : List (okvc → okvc)) (okvc_ : okvc) : okvc :=
  steps.foldl (fun s step => step s) okvc_

/-- The encoder-motor stop request with one encoder pulse arriving after its
first `i` statements: the interrupt handler preempts the store there and runs
to its end, then the store goes on with its remaining statements.  With `i` =
0 the pulse is handled before the stop, with `i` = 6 after it. -/
def enc_stop_with_pulse_at (i : Nat) (okvc_ : okvc) : okvc :=
  run_steps (run_motor_enc_stop_steps.drop i)
    (okvc_irq (run_steps (run_motor_enc_stop_steps.take i) okvc_)).1

/-- The stop has won: the mode is Idle, the brake is asserted (`MODE_1_1` high,
`DIR_1` low, PWM at full period) and `run_motor_enc` is 0. -/
def stop_won (okvc_ : okvc) : Prop :=
  okvc_.state = OKVC_IDLE ∧ okvc_.gpio.mode_1_1 = true ∧ okvc_.gpio.dir_1 = false ∧
    okvc_.pwm.duty_ns = pwm_period ∧ okvc_.pwm.period_ns = pwm_period ∧
    okvc_.run_motor_enc = 0

instance (okvc_ : okvc) : Decidable (stop_won okvc_) := by
  unfold stop_won; infer_instance

/-- An encoder cycle started on the attached controller with `forward_cnt` = 0:
the next pulse reverses the motor. -/
def enc_forward_at_threshold : okvc :=
  okvc_run okvc_attached [write_forward_cnt 0 2, write_run_motor_enc 1 2]

/-! ## Facts about the embedding -/

theorem okvc_probe_attached :
    okvc_probe true 0 0 0 0 (some pwm_fresh) 0 = (some okvc_attached, 0) := by
  decide

@[simp] theorem to_int_zero : to_int 0 = 0 := by decide

@[simp] theorem to_int_one : to_int 1 = 1 := by decide

/-- In the `int` range `to_int` is the identity. -/
theorem to_int_of_range (v : Int) (hlo : -2147483648 ≤ v) (hhi : v ≤ 2147483647) :
    to_int v = v := by
  unfold to_int; omega

/-- The value of `to_int` is a C `int`. -/
theorem to_int_range (v : Int) : -2147483648 ≤ to_int v ∧ to_int v ≤ 2147483647 := by
  unfold to_int; omega

@[simp] theorem gpio_set_value_SLEEP_1 (g : gpio_levels) (v : Int) :
    gpio_set_value g SLEEP_1 v = { g with sleep_1 := decide (v ≠ 0) } := rfl

@[simp] theorem gpio_set_value_DIR_1 (g : gpio_levels) (v : Int) :
    gpio_set_value g DIR_1 v = { g with dir_1 := decide (v ≠ 0) } := rfl

@[simp] theorem gpio_set_value_MODE_1_1 (g : gpio_levels) (v : Int) :
    gpio_set_value g MODE_1_1 v = { g with mode_1_1 := decide (v ≠ 0) } := rfl

@[simp] theorem gpio_set_value_TXS_OE (g : gpio_levels) (v : Int) :
    gpio_set_value g TXS_OE v = { g with txs_oe := decide (v ≠ 0) } := rfl

@[simp] theorem gpio_set_value_TXS1 (g : gpio_levels) (v : Int) :
    gpio_set_value g TXS1 v = { g with txs1 := decide (v ≠ 0) } := rfl

@[simp] theorem gpio_set_value_TXS2 (g : gpio_levels) (v : Int) :
    gpio_set_value g TXS2 v = { g with txs2 := decide (v ≠ 0) } := rfl

/-- The function `okvc_pwm_config` touches the PWM channel only. -/
theorem okvc_pwm_config_frame (okvc_ : okvc) :
    ∃ p, (okvc_pwm_config okvc_).1 = { okvc_ with pwm := p } := by
  unfold okvc_pwm_config
  simp only []
  split_ifs <;> exact ⟨_, rfl⟩

/-- The function `setup_motor` touches the PWM channel and the lines `MODE_1_1`
and `DIR_1` only. -/
theorem setup_motor_frame (okvc_ : okvc) (m : Nat) :
    ∃ p a b, setup_motor okvc_ m =
      { okvc_ with pwm := p, gpio := { okvc_.gpio with mode_1_1 := a, dir_1 := b } } := by
  obtain ⟨p, hp⟩ := okvc_pwm_config_frame okvc_
  unfold setup_motor
  split_ifs
  · exact ⟨_, _, _, rfl⟩
  · simp only [hp]
    exact ⟨_, _, _, rfl⟩
  · simp only [hp]
    exact ⟨_, _, _, rfl⟩
  · exact ⟨_, _, _, rfl⟩

@[simp] theorem setup_motor_pos (okvc_ : okvc) (m : Nat) :
    (setup_motor okvc_ m).pos = okvc_.pos := by
  obtain ⟨p, a, b, h⟩ := setup_motor_frame okvc_ m
  rw [h]

@[simp] theorem setup_motor_irq (okvc_ : okvc) (m : Nat) :
    (setup_motor okvc_ m).irq = okvc_.irq := by
  obtain ⟨p, a, b, h⟩ := setup_motor_frame okvc_ m
  rw [h]

@[simp] theorem setup_motor_forward_ms (okvc_ : okvc) (m : Nat) :
    (setup_motor okvc_ m).forward_ms = okvc_.forward_ms := by
  obtain ⟨p, a, b, h⟩ := setup_motor_frame okvc_ m
  rw [h]

@[simp] theorem setup_motor_backward_ms (okvc_ : okvc) (m : Nat) :
    (setup_motor okvc_ m).backward_ms = okvc_.backward_ms := by
  obtain ⟨p, a, b, h⟩ := setup_motor_frame okvc_ m
  rw [h]

@[simp] theorem setup_motor_forward_cnt (okvc_ : okvc) (m : Nat) :
    (setup_motor okvc_ m).forward_cnt = okvc_.forward_cnt := by
  obtain ⟨p, a, b, h⟩ := setup_motor_frame okvc_ m
  rw [h]

@[simp] theorem setup_motor_backward_cnt (okvc_ : okvc) (m : Nat) :
    (setup_motor okvc_ m).backward_cnt = okvc_.backward_cnt := by
  obtain ⟨p, a, b, h⟩ := setup_motor_frame okvc_ m
  rw [h]

@[simp] theorem setup_motor_pwm_duty_percentx10 (okvc_ : okvc) (m : Nat) :
    (setup_motor okvc_ m).pwm_duty_percentx10 = okvc_.pwm_duty_percentx10 := by
  obtain ⟨p, a, b, h⟩ := setup_motor_frame okvc_ m
  rw [h]

@[simp] theorem setup_motor_reverse_encoder (okvc_ : okvc) (m : Nat) :
    (setup_motor okvc_ m).reverse_encoder = okvc_.reverse_encoder := by
  obtain ⟨p, a, b, h⟩ := setup_motor_frame okvc_ m
  rw [h]

@[simp] theorem setup_motor_spray_pre_ms (okvc_ : okvc) (m : Nat) :
    (setup_motor okvc_ m).spray_pre_ms = okvc_.spray_pre_ms := by
  obtain ⟨p, a, b, h⟩ := setup_motor_frame okvc_ m
  rw [h]

@[simp] theorem setup_motor_spray_ms (okvc_ : okvc) (m : Nat) :
    (setup_motor okvc_ m).spray_ms = okvc_.spray_ms := by
  obtain ⟨p, a, b, h⟩ := setup_motor_frame okvc_ m
  rw [h]

@[simp] theorem setup_motor_spray_post_ms (okvc_ : okvc) (m : Nat) :
    (setup_motor okvc_ m).spray_post_ms = okvc_.spray_post_ms := by
  obtain ⟨p, a, b, h⟩ := setup_motor_frame okvc_ m
  rw [h]

@[simp] theorem setup_motor_prec_valve_ms (okvc_ : okvc) (m : Nat) :
    (setup_motor okvc_ m).prec_valve_ms = okvc_.prec_valve_ms := by
  obtain ⟨p, a, b, h⟩ := setup_motor_frame okvc_ m
  rw [h]

@[simp] theorem setup_motor_adc_average (okvc_ : okvc) (m : Nat) :
    (setup_motor okvc_ m).adc_average = okvc_.adc_average := by
  obtain ⟨p, a, b, h⟩ := setup_motor_frame okvc_ m
  rw [h]

@[simp] theorem setup_motor_adc_average_start_ms (okvc_ : okvc) (m : Nat) :
    (setup_motor okvc_ m).adc_average_start_ms = okvc_.adc_average_start_ms := by
  obtain ⟨p, a, b, h⟩ := setup_motor_frame okvc_ m
  rw [h]

@[simp] theorem setup_motor_run_motor (okvc_ : okvc) (m : Nat) :
    (setup_motor okvc_ m).run_motor = okvc_.run_motor := by
  obtain ⟨p, a, b, h⟩ := setup_motor_frame okvc_ m
  rw [h]

@[simp] theorem setup_motor_run_motor_enc (okvc_ : okvc) (m : Nat) :
    (setup_motor okvc_ m).run_motor_enc = okvc_.run_motor_enc := by
  obtain ⟨p, a, b, h⟩ := setup_motor_frame okvc_ m
  rw [h]

@[simp] theorem setup_motor_run_spray (okvc_ : okvc) (m : Nat) :
    (setup_motor okvc_ m).run_spray = okvc_.run_spray := by
  obtain ⟨p, a, b, h⟩ := setup_motor_frame okvc_ m
  rw [h]

@[simp] theorem setup_motor_run_prec_valve (okvc_ : okvc) (m : Nat) :
    (setup_motor okvc_ m).run_prec_valve = okvc_.run_prec_valve := by
  obtain ⟨p, a, b, h⟩ := setup_motor_frame okvc_ m
  rw [h]

@[simp] theorem setup_motor_forward (okvc_ : okvc) (m : Nat) :
    (setup_motor okvc_ m).forward = okvc_.forward := by
  obtain ⟨p, a, b, h⟩ := setup_motor_frame okvc_ m
  rw [h]

@[simp] theorem setup_motor_backward (okvc_ : okvc) (m : Nat) :
    (setup_motor okvc_ m).backward = okvc_.backward := by
  obtain ⟨p, a, b, h⟩ := setup_motor_frame okvc_ m
  rw [h]

@[simp] theorem setup_motor_state (okvc_ : okvc) (m : Nat) :
    (setup_motor okvc_ m).state = okvc_.state := by
  obtain ⟨p, a, b, h⟩ := setup_motor_frame okvc_ m
  rw [h]

@[simp] theorem setup_motor_timer (okvc_ : okvc) (m : Nat) :
    (setup_motor okvc_ m).timer = okvc_.timer := by
  obtain ⟨p, a, b, h⟩ := setup_motor_frame okvc_ m
  rw [h]

@[simp] theorem setup_motor_adc_work (okvc_ : okvc) (m : Nat) :
    (setup_motor okvc_ m).adc_work = okvc_.adc_work := by
  obtain ⟨p, a, b, h⟩ := setup_motor_frame okvc_ m
  rw [h]

@[simp] theorem setup_motor_now (okvc_ : okvc) (m : Nat) :
    (setup_motor okvc_ m).now = okvc_.now := by
  obtain ⟨p, a, b, h⟩ := setup_motor_frame okvc_ m
  rw [h]

@[simp] theorem setup_motor_sleep_1 (okvc_ : okvc) (m : Nat) :
    (setup_motor okvc_ m).gpio.sleep_1 = okvc_.gpio.sleep_1 := by
  obtain ⟨p, a, b, h⟩ := setup_motor_frame okvc_ m
  rw [h]

@[simp] theorem setup_motor_txs_oe (okvc_ : okvc) (m : Nat) :
    (setup_motor okvc_ m).gpio.txs_oe = okvc_.gpio.txs_oe := by
  obtain ⟨p, a, b, h⟩ := setup_motor_frame okvc_ m
  rw [h]

@[simp] theorem setup_motor_txs1 (okvc_ : okvc) (m : Nat) :
    (setup_motor okvc_ m).gpio.txs1 = okvc_.gpio.txs1 := by
  obtain ⟨p, a, b, h⟩ := setup_motor_frame okvc_ m
  rw [h]

@[simp] theorem setup_motor_txs2 (okvc_ : okvc) (m : Nat) :
    (setup_motor okvc_ m).gpio.txs2 = okvc_.gpio.txs2 := by
  obtain ⟨p, a, b, h⟩ := setup_motor_frame okvc_ m
  rw [h]

/-! ## Start and stop requests -/

/-- C2: while the mode is not Idle, a start request (a written value that is
truthy as an `int`) on any of the four run attributes is a no-op: each store
answers `count` and hands back the controller unchanged, so the mode, the
position, the four run flags, the output lines, the PWM configuration and the
pending timer deadline are all what they were. -/
theorem start_while_active_is_noop (okvc_ : okvc) (val : Int) (count : Nat)
    (hrun : to_int val ≠ 0) (hmode : okvc_.state ≠ OKVC_IDLE) :
    run_motor_store okvc_ val count = (okvc_, (count : Int)) ∧
    run_motor_enc_store okvc_ val count = (okvc_, (count : Int)) ∧
    run_spray_store okvc_ val count = (okvc_, (count : Int)) ∧
    run_prec_valve_store okvc_ val count = (okvc_, (count : Int)) := by
  refine ⟨?_, ?_, ?_, ?_⟩
  · simp [run_motor_store, hrun, hmode]
  · simp [run_motor_enc_store, hrun, hmode]
  · simp [run_spray_store, hrun, hmode]
  · simp [run_prec_valve_store, hrun, hmode]

theorem start_while_active_is_noop_witness :
    to_int 1 ≠ 0 ∧
    ({ okvc_attached with state := OKVC_SPRAY_SPRAY } : okvc).state ≠ OKVC_IDLE ∧
    (run_motor_store { okvc_attached with state := OKVC_SPRAY_SPRAY } 1 2 =
        ({ okvc_attached with state := OKVC_SPRAY_SPRAY }, ((2 : Nat) : Int)) ∧
      run_motor_enc_store { okvc_attached with state := OKVC_SPRAY_SPRAY } 1 2 =
        ({ okvc_attached with state := OKVC_SPRAY_SPRAY }, ((2 : Nat) : Int)) ∧
      run_spray_store { okvc_attached with state := OKVC_SPRAY_SPRAY } 1 2 =
        ({ okvc_attached with state := OKVC_SPRAY_SPRAY }, ((2 : Nat) : Int)) ∧
      run_prec_valve_store { okvc_attached with state := OKVC_SPRAY_SPRAY } 1 2 =
        ({ okvc_attached with state := OKVC_SPRAY_SPRAY }, ((2 : Nat) : Int))) :=
  ⟨by decide, by decide,
    start_while_active_is_noop { okvc_attached with state := OKVC_SPRAY_SPRAY } 1 2
      (by decide) (by decide)⟩

/-- C3: in every controller state, writing 0 to `run_motor`, `run_motor_enc` or
`run_spray` is accepted: afterwards the mode is Idle and the run flag of the
attribute written is 0. -/
theorem stop_is_accepted (okvc_ : okvc) (count : Nat) :
    ((run_motor_store okvc_ 0 count).1.state = OKVC_IDLE ∧
      (run_motor_store okvc_ 0 count).1.run_motor = 0) ∧
    ((run_motor_enc_store okvc_ 0 count).1.state = OKVC_IDLE ∧
      (run_motor_enc_store okvc_ 0 count).1.run_motor_enc = 0) ∧
    ((run_spray_store okvc_ 0 count).1.state = OKVC_IDLE ∧
      (run_spray_store okvc_ 0 count).1.run_spray = 0) := by
  refine ⟨⟨?_, ?_⟩, ⟨?_, ?_⟩, ⟨?_, ?_⟩⟩ <;>
    simp [run_motor_store, run_motor_enc_store, run_spray_store]

/-- C4 (the code at the failing input): a precision-valve cycle is started on
the attached controller (`prec_valve_ms` = 50), then 5 is written to
`prec_valve_ms`, then 0 to `run_prec_valve`.  The stop request changes nothing:
the mode is still `OKVC_PREC_VALVE_ADC`, `run_prec_valve` is still 1, the
enable line `TXS1` is still high and the deadline is still pending. -/
theorem prec_valve_stop_refused_below_threshold :
    (okvc_run okvc_attached [write_run_prec_valve 1 2, write_prec_valve_ms 5 2]).state
        = OKVC_PREC_VALVE_ADC ∧
    (okvc_run okvc_attached
        [write_run_prec_valve 1 2, write_prec_valve_ms 5 2, write_run_prec_valve 0 2])
      = okvc_run okvc_attached [write_run_prec_valve 1 2, write_prec_valve_ms 5 2] ∧
    (okvc_run okvc_attached
        [write_run_prec_valve 1 2, write_prec_valve_ms 5 2, write_run_prec_valve 0 2]).state
        = OKVC_PREC_VALVE_ADC ∧
    (okvc_run okvc_attached
        [write_run_prec_valve 1 2, write_prec_valve_ms 5 2, write_run_prec_valve 0 2]).run_prec_valve
        = 1 ∧
    (okvc_run okvc_attached
        [write_run_prec_valve 1 2, write_prec_valve_ms 5 2, write_run_prec_valve 0 2]).gpio.txs1
        = true ∧
    (okvc_run okvc_attached
        [write_run_prec_valve 1 2, write_prec_valve_ms 5 2, write_run_prec_valve 0 2]).timer.enqueued
        = true := by
  decide

/-- C5: with `prec_valve_ms` below 10, a write to `run_prec_valve` (a start
request in particular) changes nothing: the store answers `count` and hands
back the controller unchanged, so the mode, `run_prec_valve`, `adc_average`,
the enable line and the timer are what they were. -/
theorem prec_valve_start_below_10_is_noop (okvc_ : okvc) (val : Int) (count : Nat)
    (hms : okvc_.prec_valve_ms < 10) :
    run_prec_valve_store okvc_ val count = (okvc_, (count : Int)) := by
  simp [run_prec_valve_store, hms]

theorem prec_valve_start_below_10_is_noop_witness :
    ({ okvc_attached with prec_valve_ms := 9 } : okvc).prec_valve_ms < 10 ∧
    run_prec_valve_store { okvc_attached with prec_valve_ms := 9 } 1 2 =
      ({ okvc_attached with prec_valve_ms := 9 }, ((2 : Nat) : Int)) :=
  ⟨by decide, prec_valve_start_below_10_is_noop { okvc_attached with prec_valve_ms := 9 } 1 2
    (by decide)⟩

/-- C6 (the code at the failing input): 10 is written to `prec_valve_ms` of the
attached, idle controller and then 1 to `run_prec_valve`.  The start is not
rejected: the mode becomes `OKVC_PREC_VALVE_ADC`, `run_prec_valve` becomes 1,
the enable line `TXS1` goes high and a deadline is armed. -/
theorem prec_valve_start_accepted_at_10 :
    (okvc_run okvc_attached [write_prec_valve_ms 10 3]).state = OKVC_IDLE ∧
    (okvc_run okvc_attached [write_prec_valve_ms 10 3]).prec_valve_ms = 10 ∧
    (okvc_run okvc_attached [write_prec_valve_ms 10 3]).run_prec_valve = 0 ∧
    (okvc_run okvc_attached [write_prec_valve_ms 10 3, write_run_prec_valve 1 2]).state
        = OKVC_PREC_VALVE_ADC ∧
    (okvc_run okvc_attached [write_prec_valve_ms 10 3, write_run_prec_valve 1 2]).run_prec_valve
        = 1 ∧
    (okvc_run okvc_attached [write_prec_valve_ms 10 3, write_run_prec_valve 1 2]).gpio.txs1
        = true ∧
    (okvc_run okvc_attached [write_prec_valve_ms 10 3, write_run_prec_valve 1 2]).timer
        = { expires := 10, enqueued := true } := by
  decide

/-! ## Encoder cycles -/

theorem okvc_pulses_succ (n : Nat) (okvc_ : okvc) :
    okvc_pulses (n + 1) okvc_ = (okvc_irq (okvc_pulses n okvc_)).1 := rfl

/-- One pulse in `OKVC_ENC_FORWARD` that does not take `pos` past `forward_cnt`
only counts. -/
theorem okvc_irq_forward_counting (okvc_ : okvc) (hmode : okvc_.state = OKVC_ENC_FORWARD)
    (hle : to_int (okvc_.pos + 1) ≤ okvc_.forward_cnt) :
    (okvc_irq okvc_).1 = { okvc_ with pos := to_int (okvc_.pos + 1) } := by
  have h : ¬ to_int (okvc_.pos + 1) > okvc_.forward_cnt := by omega
  simp [okvc_irq, hmode, h]

/-- One pulse in `OKVC_ENC_BACKWARD` that does not take `pos` past
`backward_cnt` only counts. -/
theorem okvc_irq_backward_counting (okvc_ : okvc) (hmode : okvc_.state = OKVC_ENC_BACKWARD)
    (hle : to_int (okvc_.pos + 1) ≤ okvc_.backward_cnt) :
    (okvc_irq okvc_).1 = { okvc_ with pos := to_int (okvc_.pos + 1) } := by
  have h : ¬ to_int (okvc_.pos + 1) > okvc_.backward_cnt := by omega
  simp [okvc_irq, hmode, h]

/-- Up to `forward_cnt` pulses in `OKVC_ENC_FORWARD`, from position 0, only
count. -/
theorem okvc_pulses_forward_counting (okvc_ : okvc) (hmode : okvc_.state = OKVC_ENC_FORWARD)
    (hpos : okvc_.pos = 0) (hmax : okvc_.forward_cnt ≤ 2147483647) (k : Nat)
    (hk : (k : Int) ≤ okvc_.forward_cnt) :
    okvc_pulses k okvc_ = { okvc_ with pos := k } := by
  induction k with
  | zero =>
    cases okvc_
    simp only [okvc_pulses] at *
    subst hpos
    rfl
  | succ k ih =>
    have hk1 : ((k : Nat) : Int) ≤ okvc_.forward_cnt := by push_cast at hk; omega
    have hk2 : to_int ((k : Int) + 1) = (k : Int) + 1 := by
      apply to_int_of_range <;> push_cast at hk <;> omega
    have hstep := okvc_irq_forward_counting { okvc_ with pos := (k : Int) } hmode
      (by simp only [hk2]; push_cast at hk; omega)
    rw [okvc_pulses_succ, ih hk1, hstep]
    simp only [hk2]
    push_cast
    rfl

/-- Up to `backward_cnt` pulses in `OKVC_ENC_BACKWARD`, from position 0, only
count. -/
theorem okvc_pulses_backward_counting (okvc_ : okvc)
    (hmode : okvc_.state = OKVC_ENC_BACKWARD)
    (hpos : okvc_.pos = 0) (hmax : okvc_.backward_cnt ≤ 2147483647) (k : Nat)
    (hk : (k : Int) ≤ okvc_.backward_cnt) :
    okvc_pulses k okvc_ = { okvc_ with pos := k } := by
  induction k with
  | zero =>
    cases okvc_
    simp only [okvc_pulses] at *
    subst hpos
    rfl
  | succ k ih =>
    have hk1 : ((k : Nat) : Int) ≤ okvc_.backward_cnt := by push_cast at hk; omega
    have hk2 : to_int ((k : Int) + 1) = (k : Int) + 1 := by
      apply to_int_of_range <;> push_cast at hk <;> omega
    have hstep := okvc_irq_backward_counting { okvc_ with pos := (k : Int) } hmode
      (by simp only [hk2]; push_cast at hk; omega)
    rw [okvc_pulses_succ, ih hk1, hstep]
    simp only [hk2]
    push_cast
    rfl

/-- The pulse that takes `pos` past `forward_cnt` in `OKVC_ENC_FORWARD` reverses
the motor: the mode becomes `OKVC_ENC_BACKWARD` and `pos` restarts from 0,
whether or not the final `pwm_enable` succeeds. -/
theorem okvc_irq_forward_reversal (okvc_ : okvc) (hmode : okvc_.state = OKVC_ENC_FORWARD)
    (hgt : to_int (okvc_.pos + 1) > okvc_.forward_cnt) :
    (okvc_irq okvc_).1.state = OKVC_ENC_BACKWARD ∧ (okvc_irq okvc_).1.pos = 0 ∧
    (okvc_irq okvc_).1.run_motor_enc = okvc_.run_motor_enc := by
  unfold okvc_irq
  simp only [hmode, hgt, if_true]
  split_ifs <;> simp

/-- The pulse that takes `pos` past `backward_cnt` in `OKVC_ENC_BACKWARD` ends
the cycle. -/
theorem okvc_irq_backward_completion (okvc_ : okvc)
    (hmode : okvc_.state = OKVC_ENC_BACKWARD)
    (hgt : to_int (okvc_.pos + 1) > okvc_.backward_cnt) :
    (okvc_irq okvc_).1.state = OKVC_IDLE ∧ (okvc_irq okvc_).1.run_motor_enc = 0 := by
  unfold okvc_irq
  simp only [hmode, hgt, if_true]
  simp

/-- C7 (amended): for every `forward_cnt` = n with 0 ≤ n < 2147483647, from
mode `OKVC_ENC_FORWARD` with position 0, after k ≤ n pulses the mode is still
`OKVC_ENC_FORWARD` with position k, and after exactly n + 1 pulses the mode is
`OKVC_ENC_BACKWARD`, the position is back to 0 and `run_motor_enc` is what it
was (still set when it was set). -/
theorem enc_forward_cycle (okvc_ : okvc) (n : Nat)
    (hmode : okvc_.state = OKVC_ENC_FORWARD) (hpos : okvc_.pos = 0)
    (hcnt : okvc_.forward_cnt = n) (hmax : n < 2147483647) :
    (∀ k : Nat, k ≤ n →
      (okvc_pulses k okvc_).state = OKVC_ENC_FORWARD ∧ (okvc_pulses k okvc_).pos = k) ∧
    (okvc_pulses (n + 1) okvc_).state = OKVC_ENC_BACKWARD ∧
    (okvc_pulses (n + 1) okvc_).pos = 0 ∧
    (okvc_pulses (n + 1) okvc_).run_motor_enc = okvc_.run_motor_enc := by
  have hcount : ∀ k : Nat, k ≤ n → okvc_pulses k okvc_ = { okvc_ with pos := k } := by
    intro k hk
    exact okvc_pulses_forward_counting okvc_ hmode hpos (by omega) k (by omega)
  have hwrap : to_int ((n : Int) + 1) = (n : Int) + 1 := by
    apply to_int_of_range <;> omega
  refine ⟨fun k hk => ?_, ?_⟩
  · rw [hcount k hk]
    exact ⟨hmode, rfl⟩
  · rw [okvc_pulses_succ, hcount n le_rfl]
    exact okvc_irq_forward_reversal { okvc_ with pos := (n : Int) } hmode
      (by simp only [hwrap, hcnt]; omega)

theorem enc_forward_cycle_witness :
    enc_forward_short.state = OKVC_ENC_FORWARD ∧ enc_forward_short.pos = 0 ∧
    enc_forward_short.forward_cnt = ((2 : Nat) : Int) ∧ 2 < 2147483647 ∧
    ((∀ k : Nat, k ≤ 2 →
      (okvc_pulses k enc_forward_short).state = OKVC_ENC_FORWARD ∧
        (okvc_pulses k enc_forward_short).pos = k) ∧
    (okvc_pulses (2 + 1) enc_forward_short).state = OKVC_ENC_BACKWARD ∧
    (okvc_pulses (2 + 1) enc_forward_short).pos = 0 ∧
    (okvc_pulses (2 + 1) enc_forward_short).run_motor_enc = enc_forward_short.run_motor_enc) :=
  ⟨by decide, by decide, by decide, by decide,
    enc_forward_cycle enc_forward_short 2 (by decide) (by decide) (by decide) (by decide)⟩

/-- C7 (counterexample): with `forward_cnt` = 2147483647 ≥ 0, an encoder cycle
started from the attached controller is in `OKVC_ENC_FORWARD` with position 0,
and after exactly `forward_cnt` + 1 = 2147483648 pulses the mode is not
`OKVC_ENC_BACKWARD`: the `int` position has wrapped to -2147483648 and the
mode is still `OKVC_ENC_FORWARD`. -/
theorem enc_forward_cycle_stuck_at_int_max :
    enc_forward_int_max.state = OKVC_ENC_FORWARD ∧ enc_forward_int_max.pos = 0 ∧
    enc_forward_int_max.forward_cnt = 2147483647 ∧
    (okvc_pulses 2147483648 enc_forward_int_max).state ≠ OKVC_ENC_BACKWARD ∧
    (okvc_pulses 2147483648 enc_forward_int_max).state = OKVC_ENC_FORWARD ∧
    (okvc_pulses 2147483648 enc_forward_int_max).pos = -2147483648 := by
  have hmode : enc_forward_int_max.state = OKVC_ENC_FORWARD := by decide
  have hpos : enc_forward_int_max.pos = 0 := by decide
  have hcnt : enc_forward_int_max.forward_cnt = 2147483647 := by decide
  have hcount := okvc_pulses_forward_counting enc_forward_int_max hmode hpos
    (by rw [hcnt]) 2147483647 (by rw [hcnt]; norm_num)
  have hstep : okvc_pulses 2147483648 enc_forward_int_max
      = (okvc_irq (okvc_pulses 2147483647 enc_forward_int_max)).1 :=
    okvc_pulses_succ 2147483647 enc_forward_int_max
  have hwrap : to_int (((2147483647 : Nat) : Int) + 1) = -2147483648 := by decide
  have hirq := okvc_irq_forward_counting
    { enc_forward_int_max with pos := ((2147483647 : Nat) : Int) } hmode
    (by show to_int (((2147483647 : Nat) : Int) + 1) ≤ enc_forward_int_max.forward_cnt
        rw [hcnt, hwrap]; decide)
  rw [hstep, hcount, hirq]
  refine ⟨hmode, hpos, hcnt, ?_, hmode, hwrap⟩
  show enc_forward_int_max.state ≠ OKVC_ENC_BACKWARD
  rw [hmode]
  decide

/-- C8 (amended): for every `backward_cnt` = n with 0 ≤ n < 2147483647, from
mode `OKVC_ENC_BACKWARD` with position 0 (as the reversal leaves it), after
k ≤ n pulses the mode is still `OKVC_ENC_BACKWARD` (with position k), and after
exactly n + 1 pulses the mode is Idle and `run_motor_enc` is cleared. -/
theorem enc_backward_cycle (okvc_ : okvc) (n : Nat)
    (hmode : okvc_.state = OKVC_ENC_BACKWARD) (hpos : okvc_.pos = 0)
    (hcnt : okvc_.backward_cnt = n) (hmax : n < 2147483647) :
    (∀ k : Nat, k ≤ n →
      (okvc_pulses k okvc_).state = OKVC_ENC_BACKWARD ∧ (okvc_pulses k okvc_).pos = k) ∧
    (okvc_pulses (n + 1) okvc_).state = OKVC_IDLE ∧
    (okvc_pulses (n + 1) okvc_).run_motor_enc = 0 := by
  have hcount : ∀ k : Nat, k ≤ n → okvc_pulses k okvc_ = { okvc_ with pos := k } := by
    intro k hk
    exact okvc_pulses_backward_counting okvc_ hmode hpos (by omega) k (by omega)
  have hwrap : to_int ((n : Int) + 1) = (n : Int) + 1 := by
    apply to_int_of_range <;> omega
  refine ⟨fun k hk => ?_, ?_⟩
  · rw [hcount k hk]
    exact ⟨hmode, rfl⟩
  · rw [okvc_pulses_succ, hcount n le_rfl]
    exact okvc_irq_backward_completion { okvc_ with pos := (n : Int) } hmode
      (by simp only [hwrap, hcnt]; omega)

theorem enc_backward_cycle_witness :
    enc_backward_short.state = OKVC_ENC_BACKWARD ∧ enc_backward_short.pos = 0 ∧
    enc_backward_short.backward_cnt = ((2 : Nat) : Int) ∧ 2 < 2147483647 ∧
    ((∀ k : Nat, k ≤ 2 →
      (okvc_pulses k enc_backward_short).state = OKVC_ENC_BACKWARD ∧
        (okvc_pulses k enc_backward_short).pos = k) ∧
    (okvc_pulses (2 + 1) enc_backward_short).state = OKVC_IDLE ∧
    (okvc_pulses (2 + 1) enc_backward_short).run_motor_enc = 0) :=
  ⟨by decide, by decide, by decide, by decide,
    enc_backward_cycle enc_backward_short 2 (by decide) (by decide) (by decide) (by decide)⟩

/-- C8 (counterexample): with `backward_cnt` = 2147483647 ≥ 0, an encoder cycle
of the attached controller that has just reversed is in `OKVC_ENC_BACKWARD`
with position 0 and `run_motor_enc` = 1, and after exactly `backward_cnt` + 1 =
2147483648 pulses the mode is not Idle and `run_motor_enc` is not cleared: the
`int` position has wrapped to -2147483648 and the mode is still
`OKVC_ENC_BACKWARD`. -/
theorem enc_backward_cycle_stuck_at_int_max :
    enc_backward_int_max.state = OKVC_ENC_BACKWARD ∧ enc_backward_int_max.pos = 0 ∧
    enc_backward_int_max.backward_cnt = 2147483647 ∧
    (okvc_pulses 2147483648 enc_backward_int_max).state ≠ OKVC_IDLE ∧
    (okvc_pulses 2147483648 enc_backward_int_max).run_motor_enc ≠ 0 ∧
    (okvc_pulses 2147483648 enc_backward_int_max).state = OKVC_ENC_BACKWARD ∧
    (okvc_pulses 2147483648 enc_backward_int_max).pos = -2147483648 := by
  have hmode : enc_backward_int_max.state = OKVC_ENC_BACKWARD := by decide
  have hpos : enc_backward_int_max.pos = 0 := by decide
  have hcnt : enc_backward_int_max.backward_cnt = 2147483647 := by decide
  have hflag : enc_backward_int_max.run_motor_enc = 1 := by decide
  have hcount := okvc_pulses_backward_counting enc_backward_int_max hmode hpos
    (by rw [hcnt]) 2147483647 (by rw [hcnt]; norm_num)
  have hstep : okvc_pulses 2147483648 enc_backward_int_max
      = (okvc_irq (okvc_pulses 2147483647 enc_backward_int_max)).1 :=
    okvc_pulses_succ 2147483647 enc_backward_int_max
  have hwrap : to_int (((2147483647 : Nat) : Int) + 1) = -2147483648 := by decide
  have hirq := okvc_irq_backward_counting
    { enc_backward_int_max with pos := ((2147483647 : Nat) : Int) } hmode
    (by show to_int (((2147483647 : Nat) : Int) + 1) ≤ enc_backward_int_max.backward_cnt
        rw [hcnt, hwrap]; decide)
  rw [hstep, hcount, hirq]
  refine ⟨hmode, hpos, hcnt, ?_, ?_, hmode, hwrap⟩
  · show enc_backward_int_max.state ≠ OKVC_IDLE
    rw [hmode]
    decide
  · show enc_backward_int_max.run_motor_enc ≠ 0
    rw [hflag]
    decide

/-! ## The timer callback, mode by mode -/

theorem okvc_timer_callback_motor_forward (okvc_ : okvc)
    (hmode : okvc_.state = OKVC_MOTOR_FORWARD) :
    okvc_timer_callback okvc_ =
      ({ okvc_ with
          pwm := (setup_motor okvc_ SETUP_MOTOR_CCW).pwm
          gpio := { (setup_motor okvc_ SETUP_MOTOR_CCW).gpio with txs1 := false }
          timer := { okvc_.timer with expires := okvc_.timer.expires + okvc_.backward_ms }
          state := OKVC_MOTOR_BACKWARD }, HRTIMER_RESTART) := by
  obtain ⟨p, a, b, h⟩ := setup_motor_frame okvc_ SETUP_MOTOR_CCW
  unfold okvc_timer_callback
  simp only [hmode]
  rw [h]
  rfl

theorem okvc_timer_callback_motor_backward (okvc_ : okvc)
    (hmode : okvc_.state = OKVC_MOTOR_BACKWARD) :
    okvc_timer_callback okvc_ =
      ({ okvc_ with
          pwm := (setup_motor okvc_ SETUP_MOTOR_BRAKE).pwm
          gpio := (setup_motor okvc_ SETUP_MOTOR_BRAKE).gpio
          run_motor := 0
          state := OKVC_IDLE }, HRTIMER_NORESTART) := by
  obtain ⟨p, a, b, h⟩ := setup_motor_frame okvc_ SETUP_MOTOR_BRAKE
  unfold okvc_timer_callback
  simp only [hmode]
  rw [h]

theorem okvc_timer_callback_spray_pre (okvc_ : okvc) (hmode : okvc_.state = OKVC_SPRAY_PRE) :
    okvc_timer_callback okvc_ =
      ({ okvc_ with
          gpio := { okvc_.gpio with txs1 := true }
          timer := { okvc_.timer with expires := okvc_.timer.expires + okvc_.spray_ms }
          state := OKVC_SPRAY_SPRAY }, HRTIMER_RESTART) := by
  unfold okvc_timer_callback
  simp only [hmode]
  rfl

theorem okvc_timer_callback_spray_spray (okvc_ : okvc)
    (hmode : okvc_.state = OKVC_SPRAY_SPRAY) :
    okvc_timer_callback okvc_ =
      ({ okvc_ with
          gpio := { okvc_.gpio with txs1 := false }
          timer := { okvc_.timer with expires := okvc_.timer.expires + okvc_.spray_post_ms }
          state := OKVC_SPRAY_POST }, HRTIMER_RESTART) := by
  unfold okvc_timer_callback
  simp only [hmode]
  rfl

theorem okvc_timer_callback_spray_post (okvc_ : okvc)
    (hmode : okvc_.state = OKVC_SPRAY_POST) :
    okvc_timer_callback okvc_ =
      ({ okvc_ with
          gpio := { okvc_.gpio with txs2 := false }
          state := OKVC_IDLE
          run_spray := 0 }, HRTIMER_NORESTART) := by
  unfold okvc_timer_callback
  simp only [hmode]
  rfl

theorem okvc_timer_callback_prec_valve_adc (okvc_ : okvc)
    (hmode : okvc_.state = OKVC_PREC_VALVE_ADC) :
    okvc_timer_callback okvc_ =
      ({ okvc_ with
          adc_work := true
          timer := { okvc_.timer with
            expires := okvc_.timer.expires
              + to_int (okvc_.prec_valve_ms - okvc_.adc_average_start_ms) }
          state := OKVC_PREC_VALVE_TKS }, HRTIMER_RESTART) := by
  unfold okvc_timer_callback
  simp only [hmode]
  rfl

theorem okvc_timer_callback_prec_valve_tks (okvc_ : okvc)
    (hmode : okvc_.state = OKVC_PREC_VALVE_TKS) :
    okvc_timer_callback okvc_ =
      ({ okvc_ with
          gpio := { okvc_.gpio with txs1 := false }
          state := OKVC_IDLE
          run_prec_valve := 0 }, HRTIMER_NORESTART) := by
  unfold okvc_timer_callback
  simp only [hmode]
  rfl

theorem okvc_timer_callback_idle (okvc_ : okvc) (hmode : okvc_.state = OKVC_IDLE) :
    okvc_timer_callback okvc_ = (okvc_, HRTIMER_NORESTART) := by
  unfold okvc_timer_callback
  simp only [hmode]

theorem okvc_timer_callback_enc_forward (okvc_ : okvc)
    (hmode : okvc_.state = OKVC_ENC_FORWARD) :
    okvc_timer_callback okvc_ = (okvc_, HRTIMER_NORESTART) := by
  unfold okvc_timer_callback
  simp only [hmode]

theorem okvc_timer_callback_enc_backward (okvc_ : okvc)
    (hmode : okvc_.state = OKVC_ENC_BACKWARD) :
    okvc_timer_callback okvc_ = (okvc_, HRTIMER_NORESTART) := by
  unfold okvc_timer_callback
  simp only [hmode]

/-! ## Spurious timer expiries -/

/-- C12: a spurious timer expiry is a no-op.  When the mode is Idle,
EncMotorForward or EncMotorBackward the callback hands back the controller
unchanged (mode, position, run flags, output lines, PWM, timer, and no sampling
work scheduled) and answers `HRTIMER_NORESTART`, so the timer is not rearmed. -/
theorem spurious_timer_expiry_is_noop (okvc_ : okvc)
    (hmode : okvc_.state = OKVC_IDLE ∨ okvc_.state = OKVC_ENC_FORWARD ∨
      okvc_.state = OKVC_ENC_BACKWARD) :
    okvc_timer_callback okvc_ = (okvc_, HRTIMER_NORESTART) := by
  rcases hmode with h | h | h
  · exact okvc_timer_callback_idle okvc_ h
  · exact okvc_timer_callback_enc_forward okvc_ h
  · exact okvc_timer_callback_enc_backward okvc_ h

theorem spurious_timer_expiry_is_noop_witness :
    (enc_forward_short.state = OKVC_IDLE ∨ enc_forward_short.state = OKVC_ENC_FORWARD ∨
      enc_forward_short.state = OKVC_ENC_BACKWARD) ∧
    okvc_timer_callback enc_forward_short = (enc_forward_short, HRTIMER_NORESTART) :=
  ⟨by decide, spurious_timer_expiry_is_noop enc_forward_short (by decide)⟩

/-! ## What `setup_motor` and the run stores do, as equations -/

theorem okvc_pwm_config_pwm_congr (s t : okvc) (hp : s.pwm = t.pwm)
    (hd : s.pwm_duty_percentx10 = t.pwm_duty_percentx10) :
    (okvc_pwm_config s).1.pwm = (okvc_pwm_config t).1.pwm := by
  unfold okvc_pwm_config
  simp only [hp, hd]
  split_ifs <;> rfl

theorem setup_motor_brake (okvc_ : okvc) :
    setup_motor okvc_ SETUP_MOTOR_BRAKE =
      { okvc_ with
        pwm := (pwm_config okvc_.pwm pwm_period pwm_period).1
        gpio := { okvc_.gpio with mode_1_1 := true, dir_1 := false } } := rfl

theorem setup_motor_cw (okvc_ : okvc) :
    setup_motor okvc_ SETUP_MOTOR_CW =
      { okvc_ with
        pwm := (okvc_pwm_config okvc_).1.pwm
        gpio := { okvc_.gpio with mode_1_1 := false, dir_1 := false } } := by
  obtain ⟨p, hp⟩ := okvc_pwm_config_frame okvc_
  unfold setup_motor
  rw [if_neg (by decide), if_pos rfl, hp]
  rfl

theorem setup_motor_ccw (okvc_ : okvc) :
    setup_motor okvc_ SETUP_MOTOR_CCW =
      { okvc_ with
        pwm := (okvc_pwm_config okvc_).1.pwm
        gpio := { okvc_.gpio with mode_1_1 := false, dir_1 := true } } := by
  obtain ⟨p, hp⟩ := okvc_pwm_config_frame okvc_
  unfold setup_motor
  rw [if_neg (by decide), if_neg (by decide), if_pos rfl, hp]
  rfl

theorem run_motor_store_start (okvc_ : okvc) (val : Int) (count : Nat) (hrun : to_int val ≠ 0)
    (hidle : okvc_.state = OKVC_IDLE) (hflag : okvc_.run_motor = 0) :
    run_motor_store okvc_ val count =
      ({ okvc_ with
          pos := 0
          pwm := (okvc_pwm_config okvc_).1.pwm
          gpio := { okvc_.gpio with txs1 := true, mode_1_1 := false, dir_1 := false }
          timer := { expires := okvc_.now + okvc_.forward_ms, enqueued := true }
          state := OKVC_MOTOR_FORWARD
          run_motor := to_int val }, (count : Int)) := by
  have hc := okvc_pwm_config_pwm_congr
    { okvc_ with pos := 0, gpio := gpio_set_value okvc_.gpio TXS1 1 } okvc_ rfl rfl
  unfold run_motor_store
  simp only []
  rw [if_neg (by simp [hidle]), if_pos ⟨hrun, hflag⟩, setup_motor_cw, hc]
  rfl

theorem run_motor_store_stop (okvc_ : okvc) (val : Int) (count : Nat) (hrun : to_int val = 0) :
    run_motor_store okvc_ val count =
      ({ okvc_ with
          pwm := (pwm_config okvc_.pwm pwm_period pwm_period).1
          gpio := { okvc_.gpio with txs1 := false, mode_1_1 := true, dir_1 := false }
          timer := { okvc_.timer with enqueued := false }
          state := OKVC_IDLE
          run_motor := 0 }, (count : Int)) := by
  unfold run_motor_store
  simp only []
  rw [if_neg (by simp [hrun]), if_neg (by simp [hrun]), if_pos hrun, setup_motor_brake, hrun]
  rfl

theorem run_motor_enc_store_start (okvc_ : okvc) (val : Int) (count : Nat) (hrun : to_int val ≠ 0)
    (hidle : okvc_.state = OKVC_IDLE) (hflag : okvc_.run_motor_enc = 0) :
    run_motor_enc_store okvc_ val count =
      ({ okvc_ with
          pos := 0
          pwm := (okvc_pwm_config okvc_).1.pwm
          gpio := { okvc_.gpio with txs1 := true, mode_1_1 := false, dir_1 := false }
          state := OKVC_ENC_FORWARD
          run_motor_enc := to_int val }, (count : Int)) := by
  have hc := okvc_pwm_config_pwm_congr
    { okvc_ with pos := 0, gpio := gpio_set_value okvc_.gpio TXS1 1 } okvc_ rfl rfl
  unfold run_motor_enc_store
  simp only []
  rw [if_neg (by simp [hidle]), if_pos ⟨hrun, hflag⟩, setup_motor_cw, hc]
  rfl

theorem run_motor_enc_store_stop (okvc_ : okvc) (val : Int) (count : Nat) (hrun : to_int val = 0) :
    run_motor_enc_store okvc_ val count =
      ({ okvc_ with
          pwm := (pwm_config okvc_.pwm pwm_period pwm_period).1
          gpio := { okvc_.gpio with txs1 := false, mode_1_1 := true, dir_1 := false }
          state := OKVC_IDLE
          run_motor_enc := 0 }, (count : Int)) := by
  unfold run_motor_enc_store
  simp only []
  rw [if_neg (by simp [hrun]), if_neg (by simp [hrun]), if_pos hrun, setup_motor_brake, hrun]
  rfl

theorem run_spray_store_start (okvc_ : okvc) (val : Int) (count : Nat) (hrun : to_int val ≠ 0)
    (hidle : okvc_.state = OKVC_IDLE) (hflag : okvc_.run_spray = 0) :
    run_spray_store okvc_ val count =
      ({ okvc_ with
          gpio := { okvc_.gpio with txs2 := true }
          timer := { expires := okvc_.now + okvc_.spray_pre_ms, enqueued := true }
          state := OKVC_SPRAY_PRE
          run_spray := to_int val }, (count : Int)) := by
  unfold run_spray_store
  simp only []
  rw [if_neg (by simp [hidle]), if_pos ⟨hrun, hflag⟩]
  rfl

theorem run_spray_store_stop (okvc_ : okvc) (val : Int) (count : Nat) (hrun : to_int val = 0) :
    run_spray_store okvc_ val count =
      ({ okvc_ with
          gpio := { okvc_.gpio with txs1 := false, txs2 := false }
          timer := { okvc_.timer with enqueued := false }
          state := OKVC_IDLE
          run_spray := 0 }, (count : Int)) := by
  unfold run_spray_store
  simp only []
  rw [if_neg (by simp [hrun]), if_neg (by simp [hrun]), if_pos hrun, hrun]
  rfl

theorem run_prec_valve_store_start (okvc_ : okvc) (val : Int) (count : Nat) (hrun : to_int val ≠ 0)
    (hms : 10 ≤ okvc_.prec_valve_ms)
    (hidle : okvc_.state = OKVC_IDLE) (hflag : okvc_.run_prec_valve = 0) :
    run_prec_valve_store okvc_ val count =
      ({ okvc_ with
          gpio := { okvc_.gpio with txs1 := true }
          timer := { expires := okvc_.now + okvc_.adc_average_start_ms, enqueued := true }
          state := OKVC_PREC_VALVE_ADC
          adc_average := 0
          run_prec_valve := to_int val }, (count : Int)) := by
  unfold run_prec_valve_store
  simp only []
  rw [if_neg (by omega), if_neg (by simp [hidle]), if_pos ⟨hrun, hflag⟩]
  rfl

theorem run_prec_valve_store_stop (okvc_ : okvc) (val : Int) (count : Nat) (hrun : to_int val = 0)
    (hms : 10 ≤ okvc_.prec_valve_ms) :
    run_prec_valve_store okvc_ val count =
      ({ okvc_ with
          gpio := { okvc_.gpio with txs1 := false }
          timer := { okvc_.timer with enqueued := false }
          state := OKVC_IDLE
          run_prec_valve := 0 }, (count : Int)) := by
  unfold run_prec_valve_store
  simp only []
  rw [if_neg (by omega), if_neg (by simp [hrun]), if_neg (by simp [hrun]), if_pos hrun, hrun]
  rfl

/-- A truthy write to a run attribute of an idle controller whose flag is
already set starts nothing: only the flag takes the written value. -/
theorem run_motor_store_stale (okvc_ : okvc) (val : Int) (count : Nat) (hrun : to_int val ≠ 0)
    (hidle : okvc_.state = OKVC_IDLE) (hflag : okvc_.run_motor ≠ 0) :
    run_motor_store okvc_ val count = ({ okvc_ with run_motor := to_int val }, (count : Int)) := by
  unfold run_motor_store
  simp only []
  rw [if_neg (by simp [hidle]), if_neg (by simp [hflag]), if_neg hrun]

theorem run_motor_enc_store_stale (okvc_ : okvc) (val : Int) (count : Nat) (hrun : to_int val ≠ 0)
    (hidle : okvc_.state = OKVC_IDLE) (hflag : okvc_.run_motor_enc ≠ 0) :
    run_motor_enc_store okvc_ val count
      = ({ okvc_ with run_motor_enc := to_int val }, (count : Int)) := by
  unfold run_motor_enc_store
  simp only []
  rw [if_neg (by simp [hidle]), if_neg (by simp [hflag]), if_neg hrun]

theorem run_spray_store_stale (okvc_ : okvc) (val : Int) (count : Nat) (hrun : to_int val ≠ 0)
    (hidle : okvc_.state = OKVC_IDLE) (hflag : okvc_.run_spray ≠ 0) :
    run_spray_store okvc_ val count = ({ okvc_ with run_spray := to_int val }, (count : Int)) := by
  unfold run_spray_store
  simp only []
  rw [if_neg (by simp [hidle]), if_neg (by simp [hflag]), if_neg hrun]

theorem run_prec_valve_store_stale (okvc_ : okvc) (val : Int) (count : Nat) (hrun : to_int val ≠ 0)
    (hms : 10 ≤ okvc_.prec_valve_ms)
    (hidle : okvc_.state = OKVC_IDLE) (hflag : okvc_.run_prec_valve ≠ 0) :
    run_prec_valve_store okvc_ val count
      = ({ okvc_ with run_prec_valve := to_int val }, (count : Int)) := by
  unfold run_prec_valve_store
  simp only []
  rw [if_neg (by omega), if_neg (by simp [hidle]), if_neg (by simp [hflag]), if_neg hrun]

/-! ## The expiry of a pending deadline, mode by mode -/

theorem hrtimer_expire_not_pending (okvc_ : okvc) (henq : okvc_.timer.enqueued = false) :
    hrtimer_expire okvc_ = okvc_ := by
  unfold hrtimer_expire
  rw [if_neg (by simp [henq])]

theorem hrtimer_expire_motor_forward (okvc_ : okvc) (henq : okvc_.timer.enqueued = true)
    (hmode : okvc_.state = OKVC_MOTOR_FORWARD) :
    hrtimer_expire okvc_ =
      { okvc_ with
        now := max okvc_.now okvc_.timer.expires
        pwm := (okvc_pwm_config okvc_).1.pwm
        gpio := { okvc_.gpio with mode_1_1 := false, dir_1 := true, txs1 := false }
        timer := { expires := okvc_.timer.expires + okvc_.backward_ms, enqueued := true }
        state := OKVC_MOTOR_BACKWARD } := by
  have hcb := okvc_timer_callback_motor_forward
    { okvc_ with now := max okvc_.now okvc_.timer.expires,
                 timer := { okvc_.timer with enqueued := false } } hmode
  have hc := okvc_pwm_config_pwm_congr
    { okvc_ with now := max okvc_.now okvc_.timer.expires,
                 timer := { okvc_.timer with enqueued := false } } okvc_ rfl rfl
  unfold hrtimer_expire
  rw [if_pos henq]
  simp only []
  rw [hcb, setup_motor_ccw, hc]
  rfl

theorem hrtimer_expire_motor_backward (okvc_ : okvc) (henq : okvc_.timer.enqueued = true)
    (hmode : okvc_.state = OKVC_MOTOR_BACKWARD) :
    hrtimer_expire okvc_ =
      { okvc_ with
        now := max okvc_.now okvc_.timer.expires
        pwm := (pwm_config okvc_.pwm pwm_period pwm_period).1
        gpio := { okvc_.gpio with mode_1_1 := true, dir_1 := false }
        timer := { okvc_.timer with enqueued := false }
        run_motor := 0
        state := OKVC_IDLE } := by
  have hcb := okvc_timer_callback_motor_backward
    { okvc_ with now := max okvc_.now okvc_.timer.expires,
                 timer := { okvc_.timer with enqueued := false } } hmode
  unfold hrtimer_expire
  rw [if_pos henq]
  simp only []
  rw [hcb, setup_motor_brake]
  rfl

theorem hrtimer_expire_spray_pre (okvc_ : okvc) (henq : okvc_.timer.enqueued = true)
    (hmode : okvc_.state = OKVC_SPRAY_PRE) :
    hrtimer_expire okvc_ =
      { okvc_ with
        now := max okvc_.now okvc_.timer.expires
        gpio := { okvc_.gpio with txs1 := true }
        timer := { expires := okvc_.timer.expires + okvc_.spray_ms, enqueued := true }
        state := OKVC_SPRAY_SPRAY } := by
  have hcb := okvc_timer_callback_spray_pre
    { okvc_ with now := max okvc_.now okvc_.timer.expires,
                 timer := { okvc_.timer with enqueued := false } } hmode
  unfold hrtimer_expire
  rw [if_pos henq]
  simp only []
  rw [hcb]
  rfl

theorem hrtimer_expire_spray_spray (okvc_ : okvc) (henq : okvc_.timer.enqueued = true)
    (hmode : okvc_.state = OKVC_SPRAY_SPRAY) :
    hrtimer_expire okvc_ =
      { okvc_ with
        now := max okvc_.now okvc_.timer.expires
        gpio := { okvc_.gpio with txs1 := false }
        timer := { expires := okvc_.timer.expires + okvc_.spray_post_ms, enqueued := true }
        state := OKVC_SPRAY_POST } := by
  have hcb := okvc_timer_callback_spray_spray
    { okvc_ with now := max okvc_.now okvc_.timer.expires,
                 timer := { okvc_.timer with enqueued := false } } hmode
  unfold hrtimer_expire
  rw [if_pos henq]
  simp only []
  rw [hcb]
  rfl

theorem hrtimer_expire_spray_post (okvc_ : okvc) (henq : okvc_.timer.enqueued = true)
    (hmode : okvc_.state = OKVC_SPRAY_POST) :
    hrtimer_expire okvc_ =
      { okvc_ with
        now := max okvc_.now okvc_.timer.expires
        gpio := { okvc_.gpio with txs2 := false }
        timer := { okvc_.timer with enqueued := false }
        state := OKVC_IDLE
        run_spray := 0 } := by
  have hcb := okvc_timer_callback_spray_post
    { okvc_ with now := max okvc_.now okvc_.timer.expires,
                 timer := { okvc_.timer with enqueued := false } } hmode
  unfold hrtimer_expire
  rw [if_pos henq]
  simp only []
  rw [hcb]
  rfl

theorem hrtimer_expire_prec_valve_adc (okvc_ : okvc) (henq : okvc_.timer.enqueued = true)
    (hmode : okvc_.state = OKVC_PREC_VALVE_ADC) :
    hrtimer_expire okvc_ =
      { okvc_ with
        now := max okvc_.now okvc_.timer.expires
        adc_work := true
        timer := { expires := okvc_.timer.expires
                     + to_int (okvc_.prec_valve_ms - okvc_.adc_average_start_ms),
                   enqueued := true }
        state := OKVC_PREC_VALVE_TKS } := by
  have hcb := okvc_timer_callback_prec_valve_adc
    { okvc_ with now := max okvc_.now okvc_.timer.expires,
                 timer := { okvc_.timer with enqueued := false } } hmode
  unfold hrtimer_expire
  rw [if_pos henq]
  simp only []
  rw [hcb]
  rfl

theorem hrtimer_expire_prec_valve_tks (okvc_ : okvc) (henq : okvc_.timer.enqueued = true)
    (hmode : okvc_.state = OKVC_PREC_VALVE_TKS) :
    hrtimer_expire okvc_ =
      { okvc_ with
        now := max okvc_.now okvc_.timer.expires
        gpio := { okvc_.gpio with txs1 := false }
        timer := { okvc_.timer with enqueued := false }
        state := OKVC_IDLE
        run_prec_valve := 0 } := by
  have hcb := okvc_timer_callback_prec_valve_tks
    { okvc_ with now := max okvc_.now okvc_.timer.expires,
                 timer := { okvc_.timer with enqueued := false } } hmode
  unfold hrtimer_expire
  rw [if_pos henq]
  simp only []
  rw [hcb]
  rfl

/-- A pending deadline that expires in a mode without a timed stage is consumed
and changes nothing else but the clock. -/
theorem hrtimer_expire_untimed (okvc_ : okvc) (henq : okvc_.timer.enqueued = true)
    (hmode : okvc_.state = OKVC_IDLE ∨ okvc_.state = OKVC_ENC_FORWARD ∨
      okvc_.state = OKVC_ENC_BACKWARD) :
    hrtimer_expire okvc_ =
      { okvc_ with
        now := max okvc_.now okvc_.timer.expires
        timer := { okvc_.timer with enqueued := false } } := by
  have hcb : okvc_timer_callback
      { okvc_ with now := max okvc_.now okvc_.timer.expires,
                   timer := { okvc_.timer with enqueued := false } }
      = ({ okvc_ with now := max okvc_.now okvc_.timer.expires,
                      timer := { okvc_.timer with enqueued := false } }, HRTIMER_NORESTART) := by
    rcases hmode with h | h | h
    · exact okvc_timer_callback_idle _ h
    · exact okvc_timer_callback_enc_forward _ h
    · exact okvc_timer_callback_enc_backward _ h
  unfold hrtimer_expire
  rw [if_pos henq]
  simp only []
  rw [hcb]
  rfl

/-! ## Timed cycles -/

theorem okvc_run_nil (okvc_ : okvc) : okvc_run okvc_ [] = okvc_ := rfl

theorem okvc_run_cons (okvc_ : okvc) (e : okvc_event) (es : List okvc_event) :
    okvc_run okvc_ (e :: es) = okvc_run (okvc_step okvc_ e) es := rfl

theorem okvc_run_append (okvc_ : okvc) (es fs : List okvc_event) :
    okvc_run okvc_ (es ++ fs) = okvc_run (okvc_run okvc_ es) fs := by
  unfold okvc_run
  rw [List.foldl_append]

theorem okvc_step_timer_expiry (okvc_ : okvc) :
    okvc_step okvc_ timer_expiry = hrtimer_expire okvc_ := rfl

theorem okvc_step_encoder_pulse (okvc_ : okvc) :
    okvc_step okvc_ encoder_pulse = (okvc_irq okvc_).1 := rfl

theorem okvc_step_adc_work_run (okvc_ : okvc) (adc : Nat → Int) :
    okvc_step okvc_ (adc_work_run adc) = run_adc_work okvc_ adc := rfl

theorem okvc_step_write_run_motor (okvc_ : okvc) (val : Int) (count : Nat) :
    okvc_step okvc_ (write_run_motor val count) = (run_motor_store okvc_ val count).1 := rfl

theorem okvc_step_write_run_motor_enc (okvc_ : okvc) (val : Int) (count : Nat) :
    okvc_step okvc_ (write_run_motor_enc val count) = (run_motor_enc_store okvc_ val count).1 := rfl

theorem okvc_step_write_run_spray (okvc_ : okvc) (val : Int) (count : Nat) :
    okvc_step okvc_ (write_run_spray val count) = (run_spray_store okvc_ val count).1 := rfl

theorem okvc_step_write_run_prec_valve (okvc_ : okvc) (val : Int) (count : Nat) :
    okvc_step okvc_ (write_run_prec_valve val count) = (run_prec_valve_store okvc_ val count).1 := rfl

theorem okvc_step_write_forward_cnt (okvc_ : okvc) (val : Int) (count : Nat) :
    okvc_step okvc_ (write_forward_cnt val count) = (forward_cnt_store okvc_ val count).1 := rfl

theorem okvc_step_write_backward_cnt (okvc_ : okvc) (val : Int) (count : Nat) :
    okvc_step okvc_ (write_backward_cnt val count) = (backward_cnt_store okvc_ val count).1 := rfl

theorem okvc_step_write_pwm (okvc_ : okvc) (val : Int) (count : Nat) :
    okvc_step okvc_ (write_pwm val count) = (pwm_store okvc_ val count).1 := rfl

theorem okvc_step_write_reverse_encoder (okvc_ : okvc) (val : Int) (count : Nat) :
    okvc_step okvc_ (write_reverse_encoder val count) = (reverse_encoder_store okvc_ val count).1 := rfl

theorem okvc_step_write_forward (okvc_ : okvc) (val : Int) (count : Nat) :
    okvc_step okvc_ (write_forward val count) = (forward_store okvc_ val count).1 := rfl

theorem okvc_step_write_backward (okvc_ : okvc) (val : Int) (count : Nat) :
    okvc_step okvc_ (write_backward val count) = (backward_store okvc_ val count).1 := rfl

theorem okvc_step_write_spray_pre_ms (okvc_ : okvc) (val : Int) (count : Nat) :
    okvc_step okvc_ (write_spray_pre_ms val count) = (spray_pre_ms_store okvc_ val count).1 := rfl

theorem okvc_step_write_spray_ms (okvc_ : okvc) (val : Int) (count : Nat) :
    okvc_step okvc_ (write_spray_ms val count) = (spray_ms_store okvc_ val count).1 := rfl

theorem okvc_step_write_spray_post_ms (okvc_ : okvc) (val : Int) (count : Nat) :
    okvc_step okvc_ (write_spray_post_ms val count) = (spray_post_ms_store okvc_ val count).1 := rfl

theorem okvc_step_write_prec_valve_ms (okvc_ : okvc) (val : Int) (count : Nat) :
    okvc_step okvc_ (write_prec_valve_ms val count) = (prec_valve_ms_store okvc_ val count).1 := rfl

theorem okvc_step_write_adc_average_start_ms (okvc_ : okvc) (val : Int) (count : Nat) :
    okvc_step okvc_ (write_adc_average_start_ms val count) = (adc_average_start_ms_store okvc_ val count).1 := rfl

theorem okvc_step_write_forward_ms (okvc_ : okvc) (val : Int) (count : Nat) :
    okvc_step okvc_ (write_forward_ms val count) = (forward_ms_store okvc_ val count).1 := rfl

theorem okvc_step_write_backward_ms (okvc_ : okvc) (val : Int) (count : Nat) :
    okvc_step okvc_ (write_backward_ms val count) = (backward_ms_store okvc_ val count).1 := rfl

/-- C9: the timed motor cycle.  On an idle controller whose `run_motor` flag is
clear, at time 0, with positive `forward_ms` = f and `backward_ms` = b, a
truthy write to `run_motor` puts the mode in MotorForward with the deadline f
pending; the expiry of that deadline, at time f, moves to MotorBackward and
rearms the deadline to f + b; the expiry of that one, at time f + b, moves to
Idle with `run_motor` cleared and no deadline pending; a further expiry event
finds nothing pending and changes nothing. -/
theorem timed_motor_cycle (okvc_ : okvc) (val : Int) (count : Nat) (hrun : to_int val ≠ 0)
    (hidle : okvc_.state = OKVC_IDLE) (hflag : okvc_.run_motor = 0) (hnow : okvc_.now = 0)
    (hf : 0 < okvc_.forward_ms) (hb : 0 < okvc_.backward_ms) :
    ((okvc_run okvc_ [write_run_motor val count]).state = OKVC_MOTOR_FORWARD ∧
      (okvc_run okvc_ [write_run_motor val count]).now = 0 ∧
      (okvc_run okvc_ [write_run_motor val count]).timer
        = { expires := okvc_.forward_ms, enqueued := true }) ∧
    ((okvc_run okvc_ [write_run_motor val count, timer_expiry]).state = OKVC_MOTOR_BACKWARD ∧
      (okvc_run okvc_ [write_run_motor val count, timer_expiry]).now = okvc_.forward_ms ∧
      (okvc_run okvc_ [write_run_motor val count, timer_expiry]).timer
        = { expires := okvc_.forward_ms + okvc_.backward_ms, enqueued := true }) ∧
    ((okvc_run okvc_ [write_run_motor val count, timer_expiry, timer_expiry]).state
        = OKVC_IDLE ∧
      (okvc_run okvc_ [write_run_motor val count, timer_expiry, timer_expiry]).now
        = okvc_.forward_ms + okvc_.backward_ms ∧
      (okvc_run okvc_ [write_run_motor val count, timer_expiry, timer_expiry]).run_motor = 0 ∧
      (okvc_run okvc_ [write_run_motor val count, timer_expiry, timer_expiry]).timer.enqueued
        = false) ∧
    okvc_run okvc_ [write_run_motor val count, timer_expiry, timer_expiry, timer_expiry]
      = okvc_run okvc_ [write_run_motor val count, timer_expiry, timer_expiry] := by
  -- the start
  obtain ⟨s1, hs1⟩ : ∃ s1, s1 = (run_motor_store okvc_ val count).1 := ⟨_, rfl⟩
  have x1 := hs1
  rw [run_motor_store_start okvc_ val count hrun hidle hflag] at x1
  have m1 : s1.state = OKVC_MOTOR_FORWARD := by rw [x1]
  have n1 : s1.now = 0 := by rw [x1]; exact hnow
  have t1 : s1.timer = { expires := okvc_.forward_ms, enqueued := true } := by
    rw [x1]
    show ({ expires := okvc_.now + okvc_.forward_ms, enqueued := true } : hrtimer) = _
    rw [hnow, zero_add]
  have b1 : s1.backward_ms = okvc_.backward_ms := by rw [x1]
  -- the first expiry
  obtain ⟨s2, hs2⟩ : ∃ s2, s2 = hrtimer_expire s1 := ⟨_, rfl⟩
  have x2 := hs2
  rw [hrtimer_expire_motor_forward s1 (by rw [t1]) m1] at x2
  have m2 : s2.state = OKVC_MOTOR_BACKWARD := by rw [x2]
  have n2 : s2.now = okvc_.forward_ms := by
    rw [x2]
    show max s1.now s1.timer.expires = _
    rw [n1, t1]
    exact max_eq_right (le_of_lt hf)
  have t2 : s2.timer = { expires := okvc_.forward_ms + okvc_.backward_ms, enqueued := true } := by
    rw [x2]
    show ({ expires := s1.timer.expires + s1.backward_ms, enqueued := true } : hrtimer) = _
    rw [t1, b1]
  -- the second expiry
  obtain ⟨s3, hs3⟩ : ∃ s3, s3 = hrtimer_expire s2 := ⟨_, rfl⟩
  have x3 := hs3
  rw [hrtimer_expire_motor_backward s2 (by rw [t2]) m2] at x3
  have m3 : s3.state = OKVC_IDLE := by rw [x3]
  have n3 : s3.now = okvc_.forward_ms + okvc_.backward_ms := by
    rw [x3]
    show max s2.now s2.timer.expires = _
    rw [n2, t2]
    exact max_eq_right (by show okvc_.forward_ms ≤ okvc_.forward_ms + okvc_.backward_ms; omega)
  have f3 : s3.run_motor = 0 := by rw [x3]
  have t3 : s3.timer.enqueued = false := by rw [x3]
  have e4 := hrtimer_expire_not_pending s3 t3
  -- the runs
  have r1 : okvc_run okvc_ [write_run_motor val count] = s1 := by
    simp only [okvc_run_cons, okvc_run_nil, okvc_step_write_run_motor, okvc_step_timer_expiry]
    rw [← hs1]
  have r2 : okvc_run okvc_ [write_run_motor val count, timer_expiry] = s2 := by
    simp only [okvc_run_cons, okvc_run_nil, okvc_step_write_run_motor, okvc_step_timer_expiry]
    rw [← hs1, ← hs2]
  have r3 : okvc_run okvc_ [write_run_motor val count, timer_expiry, timer_expiry] = s3 := by
    simp only [okvc_run_cons, okvc_run_nil, okvc_step_write_run_motor, okvc_step_timer_expiry]
    rw [← hs1, ← hs2, ← hs3]
  have r4 : okvc_run okvc_ [write_run_motor val count, timer_expiry, timer_expiry, timer_expiry]
      = s3 := by
    simp only [okvc_run_cons, okvc_run_nil, okvc_step_write_run_motor, okvc_step_timer_expiry]
    rw [← hs1, ← hs2, ← hs3, e4]
  rw [r1, r2, r3, r4]
  exact ⟨⟨m1, n1, t1⟩, ⟨m2, n2, t2⟩, ⟨m3, n3, f3, t3⟩, rfl⟩

theorem timed_motor_cycle_witness :
    to_int 1 ≠ 0 ∧ okvc_attached.state = OKVC_IDLE ∧ okvc_attached.run_motor = 0 ∧
    okvc_attached.now = 0 ∧ 0 < okvc_attached.forward_ms ∧ 0 < okvc_attached.backward_ms ∧
    (((okvc_run okvc_attached [write_run_motor 1 2]).state = OKVC_MOTOR_FORWARD ∧
      (okvc_run okvc_attached [write_run_motor 1 2]).now = 0 ∧
      (okvc_run okvc_attached [write_run_motor 1 2]).timer
        = { expires := 33, enqueued := true }) ∧
    ((okvc_run okvc_attached [write_run_motor 1 2, timer_expiry]).state = OKVC_MOTOR_BACKWARD ∧
      (okvc_run okvc_attached [write_run_motor 1 2, timer_expiry]).now = 33 ∧
      (okvc_run okvc_attached [write_run_motor 1 2, timer_expiry]).timer
        = { expires := 99, enqueued := true }) ∧
    ((okvc_run okvc_attached [write_run_motor 1 2, timer_expiry, timer_expiry]).state
        = OKVC_IDLE ∧
      (okvc_run okvc_attached [write_run_motor 1 2, timer_expiry, timer_expiry]).now = 99 ∧
      (okvc_run okvc_attached [write_run_motor 1 2, timer_expiry, timer_expiry]).run_motor = 0 ∧
      (okvc_run okvc_attached [write_run_motor 1 2, timer_expiry, timer_expiry]).timer.enqueued
        = false) ∧
    okvc_run okvc_attached [write_run_motor 1 2, timer_expiry, timer_expiry, timer_expiry]
      = okvc_run okvc_attached [write_run_motor 1 2, timer_expiry, timer_expiry]) :=
  ⟨by decide, by decide, by decide, by decide, by decide, by decide,
    timed_motor_cycle okvc_attached 1 2 (by decide) (by decide) (by decide) (by decide)
      (by decide) (by decide)⟩

/-- C10: the spray cycle.  On an idle controller whose `run_spray` flag is
clear, at time 0, with positive `spray_pre_ms` = p, `spray_ms` = s and
`spray_post_ms` = q, a truthy write to `run_spray` puts the mode in SprayPre
with the deadline p pending; the expiries then happen at times p, p + s and
p + s + q and move to SpraySpray, SprayPost and Idle; at the end `run_spray` is
cleared, both spray lines (`TXS1`, `TXS2`) are low and no deadline is pending,
so that a further expiry event changes nothing. -/
theorem spray_cycle (okvc_ : okvc) (val : Int) (count : Nat) (hrun : to_int val ≠ 0)
    (hidle : okvc_.state = OKVC_IDLE) (hflag : okvc_.run_spray = 0) (hnow : okvc_.now = 0)
    (hp : 0 < okvc_.spray_pre_ms) (hs : 0 < okvc_.spray_ms) (hq : 0 < okvc_.spray_post_ms) :
    ((okvc_run okvc_ [write_run_spray val count]).state = OKVC_SPRAY_PRE ∧
      (okvc_run okvc_ [write_run_spray val count]).now = 0 ∧
      (okvc_run okvc_ [write_run_spray val count]).timer
        = { expires := okvc_.spray_pre_ms, enqueued := true }) ∧
    ((okvc_run okvc_ [write_run_spray val count, timer_expiry]).state = OKVC_SPRAY_SPRAY ∧
      (okvc_run okvc_ [write_run_spray val count, timer_expiry]).now = okvc_.spray_pre_ms ∧
      (okvc_run okvc_ [write_run_spray val count, timer_expiry]).timer
        = { expires := okvc_.spray_pre_ms + okvc_.spray_ms, enqueued := true }) ∧
    ((okvc_run okvc_ [write_run_spray val count, timer_expiry, timer_expiry]).state
        = OKVC_SPRAY_POST ∧
      (okvc_run okvc_ [write_run_spray val count, timer_expiry, timer_expiry]).now
        = okvc_.spray_pre_ms + okvc_.spray_ms ∧
      (okvc_run okvc_ [write_run_spray val count, timer_expiry, timer_expiry]).timer
        = { expires := okvc_.spray_pre_ms + okvc_.spray_ms + okvc_.spray_post_ms,
            enqueued := true }) ∧
    ((okvc_run okvc_ [write_run_spray val count, timer_expiry, timer_expiry, timer_expiry]).state
        = OKVC_IDLE ∧
      (okvc_run okvc_ [write_run_spray val count, timer_expiry, timer_expiry, timer_expiry]).now
        = okvc_.spray_pre_ms + okvc_.spray_ms + okvc_.spray_post_ms ∧
      (okvc_run okvc_
          [write_run_spray val count, timer_expiry, timer_expiry, timer_expiry]).run_spray = 0 ∧
      (okvc_run okvc_
          [write_run_spray val count, timer_expiry, timer_expiry, timer_expiry]).gpio.txs1
        = false ∧
      (okvc_run okvc_
          [write_run_spray val count, timer_expiry, timer_expiry, timer_expiry]).gpio.txs2
        = false ∧
      (okvc_run okvc_
          [write_run_spray val count, timer_expiry, timer_expiry, timer_expiry]).timer.enqueued
        = false) ∧
    okvc_run okvc_
        [write_run_spray val count, timer_expiry, timer_expiry, timer_expiry, timer_expiry]
      = okvc_run okvc_ [write_run_spray val count, timer_expiry, timer_expiry, timer_expiry] := by
  -- the start
  obtain ⟨s1, hs1⟩ : ∃ s1, s1 = (run_spray_store okvc_ val count).1 := ⟨_, rfl⟩
  have x1 := hs1
  rw [run_spray_store_start okvc_ val count hrun hidle hflag] at x1
  have m1 : s1.state = OKVC_SPRAY_PRE := by rw [x1]
  have n1 : s1.now = 0 := by rw [x1]; exact hnow
  have t1 : s1.timer = { expires := okvc_.spray_pre_ms, enqueued := true } := by
    rw [x1]
    show ({ expires := okvc_.now + okvc_.spray_pre_ms, enqueued := true } : hrtimer) = _
    rw [hnow, zero_add]
  have a1 : s1.spray_ms = okvc_.spray_ms := by rw [x1]
  have b1 : s1.spray_post_ms = okvc_.spray_post_ms := by rw [x1]
  -- SprayPre expires
  obtain ⟨s2, hs2⟩ : ∃ s2, s2 = hrtimer_expire s1 := ⟨_, rfl⟩
  have x2 := hs2
  rw [hrtimer_expire_spray_pre s1 (by rw [t1]) m1] at x2
  have m2 : s2.state = OKVC_SPRAY_SPRAY := by rw [x2]
  have n2 : s2.now = okvc_.spray_pre_ms := by
    rw [x2]
    show max s1.now s1.timer.expires = _
    rw [n1, t1]
    exact max_eq_right (le_of_lt hp)
  have t2 : s2.timer = { expires := okvc_.spray_pre_ms + okvc_.spray_ms, enqueued := true } := by
    rw [x2]
    show ({ expires := s1.timer.expires + s1.spray_ms, enqueued := true } : hrtimer) = _
    rw [t1, a1]
  have b2 : s2.spray_post_ms = okvc_.spray_post_ms := by rw [x2]; exact b1
  -- SpraySpray expires
  obtain ⟨s3, hs3⟩ : ∃ s3, s3 = hrtimer_expire s2 := ⟨_, rfl⟩
  have x3 := hs3
  rw [hrtimer_expire_spray_spray s2 (by rw [t2]) m2] at x3
  have m3 : s3.state = OKVC_SPRAY_POST := by rw [x3]
  have n3 : s3.now = okvc_.spray_pre_ms + okvc_.spray_ms := by
    rw [x3]
    show max s2.now s2.timer.expires = _
    rw [n2, t2]
    exact max_eq_right
      (by show okvc_.spray_pre_ms ≤ okvc_.spray_pre_ms + okvc_.spray_ms; omega)
  have t3 : s3.timer = { expires := okvc_.spray_pre_ms + okvc_.spray_ms + okvc_.spray_post_ms,
                          enqueued := true } := by
    rw [x3]
    show ({ expires := s2.timer.expires + s2.spray_post_ms, enqueued := true } : hrtimer) = _
    rw [t2, b2]
  have g3 : s3.gpio.txs1 = false := by rw [x3]
  -- SprayPost expires
  obtain ⟨s4, hs4⟩ : ∃ s4, s4 = hrtimer_expire s3 := ⟨_, rfl⟩
  have x4 := hs4
  rw [hrtimer_expire_spray_post s3 (by rw [t3]) m3] at x4
  have m4 : s4.state = OKVC_IDLE := by rw [x4]
  have n4 : s4.now = okvc_.spray_pre_ms + okvc_.spray_ms + okvc_.spray_post_ms := by
    rw [x4]
    show max s3.now s3.timer.expires = _
    rw [n3, t3]
    exact max_eq_right
      (by show okvc_.spray_pre_ms + okvc_.spray_ms
            ≤ okvc_.spray_pre_ms + okvc_.spray_ms + okvc_.spray_post_ms
          omega)
  have f4 : s4.run_spray = 0 := by rw [x4]
  have g4 : s4.gpio.txs1 = false := by rw [x4]; exact g3
  have h4 : s4.gpio.txs2 = false := by rw [x4]
  have t4 : s4.timer.enqueued = false := by rw [x4]
  have e5 := hrtimer_expire_not_pending s4 t4
  -- the runs
  have r1 : okvc_run okvc_ [write_run_spray val count] = s1 := by
    simp only [okvc_run_cons, okvc_run_nil, okvc_step_write_run_spray, okvc_step_timer_expiry]
    rw [← hs1]
  have r2 : okvc_run okvc_ [write_run_spray val count, timer_expiry] = s2 := by
    simp only [okvc_run_cons, okvc_run_nil, okvc_step_write_run_spray, okvc_step_timer_expiry]
    rw [← hs1, ← hs2]
  have r3 : okvc_run okvc_ [write_run_spray val count, timer_expiry, timer_expiry] = s3 := by
    simp only [okvc_run_cons, okvc_run_nil, okvc_step_write_run_spray, okvc_step_timer_expiry]
    rw [← hs1, ← hs2, ← hs3]
  have r4 : okvc_run okvc_ [write_run_spray val count, timer_expiry, timer_expiry, timer_expiry]
      = s4 := by
    simp only [okvc_run_cons, okvc_run_nil, okvc_step_write_run_spray, okvc_step_timer_expiry]
    rw [← hs1, ← hs2, ← hs3, ← hs4]
  have r5 : okvc_run okvc_
      [write_run_spray val count, timer_expiry, timer_expiry, timer_expiry, timer_expiry]
      = s4 := by
    simp only [okvc_run_cons, okvc_run_nil, okvc_step_write_run_spray, okvc_step_timer_expiry]
    rw [← hs1, ← hs2, ← hs3, ← hs4, e5]
  rw [r1, r2, r3, r4, r5]
  exact ⟨⟨m1, n1, t1⟩, ⟨m2, n2, t2⟩, ⟨m3, n3, t3⟩, ⟨m4, n4, f4, g4, h4, t4⟩, rfl⟩

theorem spray_cycle_witness :
    to_int 1 ≠ 0 ∧ okvc_attached.state = OKVC_IDLE ∧ okvc_attached.run_spray = 0 ∧
    okvc_attached.now = 0 ∧ 0 < okvc_attached.spray_pre_ms ∧ 0 < okvc_attached.spray_ms ∧
    0 < okvc_attached.spray_post_ms ∧
    ((okvc_run okvc_attached [write_run_spray 1 2]).state = OKVC_SPRAY_PRE ∧
      (okvc_run okvc_attached [write_run_spray 1 2]).timer
        = { expires := 50, enqueued := true }) ∧
    ((okvc_run okvc_attached [write_run_spray 1 2, timer_expiry]).state = OKVC_SPRAY_SPRAY ∧
      (okvc_run okvc_attached [write_run_spray 1 2, timer_expiry]).now = 50 ∧
      (okvc_run okvc_attached [write_run_spray 1 2, timer_expiry]).timer
        = { expires := 150, enqueued := true }) ∧
    ((okvc_run okvc_attached [write_run_spray 1 2, timer_expiry, timer_expiry]).state
        = OKVC_SPRAY_POST ∧
      (okvc_run okvc_attached [write_run_spray 1 2, timer_expiry, timer_expiry]).now = 150 ∧
      (okvc_run okvc_attached [write_run_spray 1 2, timer_expiry, timer_expiry]).timer
        = { expires := 225, enqueued := true }) ∧
    ((okvc_run okvc_attached
          [write_run_spray 1 2, timer_expiry, timer_expiry, timer_expiry]).state = OKVC_IDLE ∧
      (okvc_run okvc_attached
          [write_run_spray 1 2, timer_expiry, timer_expiry, timer_expiry]).now = 225) :=
  have h := spray_cycle okvc_attached 1 2 (by decide) (by decide) (by decide) (by decide)
    (by decide) (by decide) (by decide)
  ⟨by decide, by decide, by decide, by decide, by decide, by decide, by decide,
    ⟨h.1.1, h.1.2.2⟩, h.2.1, h.2.2.1, ⟨h.2.2.2.1.1, h.2.2.2.1.2.1⟩⟩

/-! ## Cancellation and hardware failures at concrete inputs -/

/-- C13 (the code at the failing input): a plain motor cycle is started on the
attached controller (mode MotorForward, deadline 33 pending) and 0 is written
to `run_motor_enc`.  The mode is brought to Idle but the deadline is still
pending, because the stop branch of `run_motor_enc_store` has no
`hrtimer_cancel`; the same stop written to `run_motor`, `run_spray` or
`run_prec_valve` leaves nothing pending.  The stale deadline later expires in
Idle, where the callback changes no mode. -/
theorem enc_stop_leaves_deadline_pending :
    (okvc_run okvc_attached [write_run_motor 1 2]).state = OKVC_MOTOR_FORWARD ∧
    (okvc_run okvc_attached [write_run_motor 1 2]).timer
      = { expires := 33, enqueued := true } ∧
    (okvc_run okvc_attached [write_run_motor 1 2, write_run_motor_enc 0 2]).state
      = OKVC_IDLE ∧
    (okvc_run okvc_attached [write_run_motor 1 2, write_run_motor_enc 0 2]).timer
      = { expires := 33, enqueued := true } ∧
    (okvc_run okvc_attached [write_run_motor 1 2, write_run_motor 0 2]).timer.enqueued
      = false ∧
    (okvc_run okvc_attached [write_run_motor 1 2, write_run_spray 0 2]).timer.enqueued
      = false ∧
    (okvc_run okvc_attached [write_run_motor 1 2, write_run_prec_valve 0 2]).timer.enqueued
      = false ∧
    (okvc_run okvc_attached
        [write_run_motor 1 2, write_run_motor_enc 0 2, timer_expiry]).state = OKVC_IDLE := by
  decide

/-- C14 (the code at the failing input): the PWM channel refuses every request
with `-EINVAL`.  A truthy write to `run_motor` or to `run_motor_enc` of the idle
controller still advances the mode (to MotorForward, to EncMotorForward) and
answers `count`, not the failure; the encoder pulse that passes `forward_cnt`
still advances the mode to EncMotorBackward, and answers the failure of the
last `pwm_enable` only after the mode has changed. -/
theorem pwm_failure_does_not_stop_the_state_machine :
    (okvc_pwm_config okvc_pwm_refusing).2 = -EINVAL ∧
    okvc_pwm_refusing.state = OKVC_IDLE ∧
    (run_motor_store okvc_pwm_refusing 1 2).1.state = OKVC_MOTOR_FORWARD ∧
    (run_motor_store okvc_pwm_refusing 1 2).2 = 2 ∧
    (run_motor_enc_store okvc_pwm_refusing 1 2).1.state = OKVC_ENC_FORWARD ∧
    (run_motor_enc_store okvc_pwm_refusing 1 2).2 = 2 ∧
    (okvc_run okvc_pwm_refusing [write_forward_cnt 0 2, write_run_motor_enc 1 2]).state
      = OKVC_ENC_FORWARD ∧
    (okvc_irq
      (okvc_run okvc_pwm_refusing [write_forward_cnt 0 2, write_run_motor_enc 1 2])).1.state
      = OKVC_ENC_BACKWARD ∧
    (okvc_irq
      (okvc_run okvc_pwm_refusing [write_forward_cnt 0 2, write_run_motor_enc 1 2])).2
      = -EINVAL := by
  decide

/-- C20: the settling deadline is unguarded.  With `prec_valve_ms` = 50 and
`adc_average_start_ms` = 60 the precision-valve start is accepted (mode
PrecValveSampling, deadline 60 pending), and the callback in that mode answers
`HRTIMER_RESTART` after moving the deadline by 50 - 60 = -10, a negative
interval: the new deadline, 50, lies before the one that just expired. -/
theorem settling_deadline_unguarded :
    (okvc_run okvc_attached [write_adc_average_start_ms 60 3]).prec_valve_ms = 50 ∧
    (okvc_run okvc_attached [write_adc_average_start_ms 60 3]).adc_average_start_ms = 60 ∧
    (okvc_run okvc_attached
      [write_adc_average_start_ms 60 3, write_run_prec_valve 1 2]).state
      = OKVC_PREC_VALVE_ADC ∧
    (okvc_run okvc_attached
      [write_adc_average_start_ms 60 3, write_run_prec_valve 1 2]).timer
      = { expires := 60, enqueued := true } ∧
    (okvc_timer_callback (okvc_run okvc_attached
      [write_adc_average_start_ms 60 3, write_run_prec_valve 1 2])).2 = HRTIMER_RESTART ∧
    (okvc_timer_callback (okvc_run okvc_attached
      [write_adc_average_start_ms 60 3, write_run_prec_valve 1 2])).1.state
      = OKVC_PREC_VALVE_TKS ∧
    (okvc_timer_callback (okvc_run okvc_attached
      [write_adc_average_start_ms 60 3, write_run_prec_valve 1 2])).1.timer.expires
      = 60 + (50 - 60) ∧
    (50 : Int) - 60 ≤ 0 := by
  decide

/-! ## The deferred sampling task -/

/-- An `int` sum may wrap at every step: only the final narrowing matters. -/
theorem to_int_add_to_int (a b : Int) : to_int (to_int a + b) = to_int (a + b) := by
  unfold to_int
  omega

/-- The eight-sample `int` sum of `handle_adc_work` is the narrowed sum of the
samples. -/
theorem adc_total_eq (adc : Nat → Int) :
    (List.range 8).foldl (fun total i => to_int (total + adc i)) 0
      = to_int (adc 0 + adc 1 + adc 2 + adc 3 + adc 4 + adc 5 + adc 6 + adc 7) := by
  have h : (List.range 8).foldl (fun total i => to_int (total + adc i)) 0
      = to_int (to_int (to_int (to_int (to_int (to_int (to_int (to_int (0 + adc 0) + adc 1)
          + adc 2) + adc 3) + adc 4) + adc 5) + adc 6) + adc 7) := rfl
  rw [h]
  simp only [to_int_add_to_int, zero_add]

/-- C15: for every eight ADC samples whose sum fits a C `int`, the deferred
sampling task stores into `adc_average` the sum of the eight samples divided
by 8 with truncation toward zero, and changes no other field of the
controller; the level of the enable line `TXS1` at completion only decides
whether the warning is printed (it is printed exactly when the line is low). -/
theorem adc_work_stores_truncated_mean (okvc_ : okvc) (adc : Nat → Int)
    (hlo : -2147483648 ≤ adc 0 + adc 1 + adc 2 + adc 3 + adc 4 + adc 5 + adc 6 + adc 7)
    (hhi : adc 0 + adc 1 + adc 2 + adc 3 + adc 4 + adc 5 + adc 6 + adc 7 ≤ 2147483647) :
    handle_adc_work okvc_ adc =
      ({ okvc_ with
          adc_average :=
            Int.tdiv (adc 0 + adc 1 + adc 2 + adc 3 + adc 4 + adc 5 + adc 6 + adc 7) 8 },
        !okvc_.gpio.txs1) := by
  unfold handle_adc_work
  simp only []
  rw [adc_total_eq, to_int_of_range _ hlo hhi]
  cases h : okvc_.gpio.txs1 <;> simp [gpio_get_value, h, TXS1, SLEEP_1, DIR_1, MODE_1_1, TXS_OE]

theorem adc_work_stores_truncated_mean_witness :
    (-2147483648 : Int) ≤ adc_ramp 0 + adc_ramp 1 + adc_ramp 2 + adc_ramp 3 + adc_ramp 4
        + adc_ramp 5 + adc_ramp 6 + adc_ramp 7 ∧
    adc_ramp 0 + adc_ramp 1 + adc_ramp 2 + adc_ramp 3 + adc_ramp 4
        + adc_ramp 5 + adc_ramp 6 + adc_ramp 7 ≤ 2147483647 ∧
    handle_adc_work prec_valve_sampling adc_ramp =
      ({ prec_valve_sampling with adc_average := -4 }, false) ∧
    handle_adc_work okvc_attached adc_ramp = ({ okvc_attached with adc_average := -4 }, true) :=
  ⟨by decide, by decide,
    adc_work_stores_truncated_mean prec_valve_sampling adc_ramp (by decide) (by decide),
    adc_work_stores_truncated_mean okvc_attached adc_ramp (by decide) (by decide)⟩

/-! ## Pulses outside the encoder modes -/

/-- C18: pulse counting is unconditional and otherwise inert outside the encoder
modes.  In every mode other than EncMotorForward and EncMotorBackward, with the
position a C `int` below the maximum, one encoder pulse increases the position
by exactly 1 and leaves everything else (mode, run flags, output lines, PWM,
timer) unchanged, whatever the value of `reverse_encoder`; the handler answers
`IRQ_HANDLED`. -/
theorem pulse_outside_encoder_modes (okvc_ : okvc)
    (hfwd : okvc_.state ≠ OKVC_ENC_FORWARD) (hbwd : okvc_.state ≠ OKVC_ENC_BACKWARD)
    (hlo : -2147483648 ≤ okvc_.pos) (hhi : okvc_.pos < 2147483647) :
    okvc_irq okvc_ = ({ okvc_ with pos := okvc_.pos + 1 }, IRQ_HANDLED) := by
  have hw : to_int (okvc_.pos + 1) = okvc_.pos + 1 := by
    apply to_int_of_range <;> omega
  unfold okvc_irq
  rcases hst : okvc_.state <;> simp only [hst, hw] <;>
    first
    | exact absurd hst hfwd
    | exact absurd hst hbwd

theorem pulse_outside_encoder_modes_witness :
    okvc_attached.state ≠ OKVC_ENC_FORWARD ∧ okvc_attached.state ≠ OKVC_ENC_BACKWARD ∧
    -2147483648 ≤ okvc_attached.pos ∧ okvc_attached.pos < 2147483647 ∧
    okvc_irq okvc_attached = ({ okvc_attached with pos := 1 }, IRQ_HANDLED) :=
  ⟨by decide, by decide, by decide, by decide,
    pulse_outside_encoder_modes okvc_attached (by decide) (by decide) (by decide) (by decide)⟩

/-! ## Start postconditions and idle-safe outputs -/

/-- C17: on an idle controller with all four run flags clear, each accepted
start request (a truthy written value) enters the first mode of its cycle and
sets its own run flag and no other.  Plain motor: MotorForward, the timer armed
for `forward_ms` from now.  Encoder motor: EncMotorForward, the position reset
to 0, the timer left as it was (none is armed).  Spray: SprayPre, the timer
armed for `spray_pre_ms`.  Precision valve, with `prec_valve_ms` above 10:
PrecValveSampling, the timer armed for `adc_average_start_ms`, `adc_average`
reset to 0. -/
theorem start_postcondition (okvc_ : okvc) (val : Int) (count : Nat)
    (hrun : to_int val ≠ 0) (hidle : okvc_.state = OKVC_IDLE)
    (hclear : run_flags_clear okvc_) :
    ((run_motor_store okvc_ val count).1.state = OKVC_MOTOR_FORWARD ∧
      (run_motor_store okvc_ val count).1.timer
        = { expires := okvc_.now + okvc_.forward_ms, enqueued := true } ∧
      (run_motor_store okvc_ val count).1.run_motor ≠ 0 ∧
      (run_motor_store okvc_ val count).1.run_motor_enc = 0 ∧
      (run_motor_store okvc_ val count).1.run_spray = 0 ∧
      (run_motor_store okvc_ val count).1.run_prec_valve = 0) ∧
    ((run_motor_enc_store okvc_ val count).1.state = OKVC_ENC_FORWARD ∧
      (run_motor_enc_store okvc_ val count).1.pos = 0 ∧
      (run_motor_enc_store okvc_ val count).1.timer = okvc_.timer ∧
      (run_motor_enc_store okvc_ val count).1.run_motor = 0 ∧
      (run_motor_enc_store okvc_ val count).1.run_motor_enc ≠ 0 ∧
      (run_motor_enc_store okvc_ val count).1.run_spray = 0 ∧
      (run_motor_enc_store okvc_ val count).1.run_prec_valve = 0) ∧
    ((run_spray_store okvc_ val count).1.state = OKVC_SPRAY_PRE ∧
      (run_spray_store okvc_ val count).1.timer
        = { expires := okvc_.now + okvc_.spray_pre_ms, enqueued := true } ∧
      (run_spray_store okvc_ val count).1.run_motor = 0 ∧
      (run_spray_store okvc_ val count).1.run_motor_enc = 0 ∧
      (run_spray_store okvc_ val count).1.run_spray ≠ 0 ∧
      (run_spray_store okvc_ val count).1.run_prec_valve = 0) ∧
    (10 < okvc_.prec_valve_ms →
      (run_prec_valve_store okvc_ val count).1.state = OKVC_PREC_VALVE_ADC ∧
      (run_prec_valve_store okvc_ val count).1.timer
        = { expires := okvc_.now + okvc_.adc_average_start_ms, enqueued := true } ∧
      (run_prec_valve_store okvc_ val count).1.adc_average = 0 ∧
      (run_prec_valve_store okvc_ val count).1.run_motor = 0 ∧
      (run_prec_valve_store okvc_ val count).1.run_motor_enc = 0 ∧
      (run_prec_valve_store okvc_ val count).1.run_spray = 0 ∧
      (run_prec_valve_store okvc_ val count).1.run_prec_valve ≠ 0) := by
  obtain ⟨hm, he, hs, hp⟩ := hclear
  refine ⟨?_, ?_, ?_, ?_⟩
  · rw [run_motor_store_start okvc_ val count hrun hidle hm]
    exact ⟨rfl, rfl, hrun, he, hs, hp⟩
  · rw [run_motor_enc_store_start okvc_ val count hrun hidle he]
    exact ⟨rfl, rfl, rfl, hm, hrun, hs, hp⟩
  · rw [run_spray_store_start okvc_ val count hrun hidle hs]
    exact ⟨rfl, rfl, hm, he, hrun, hp⟩
  · intro hms
    rw [run_prec_valve_store_start okvc_ val count hrun (by omega) hidle hp]
    exact ⟨rfl, rfl, rfl, hm, he, hs, hrun⟩

theorem start_postcondition_witness :
    to_int 1 ≠ 0 ∧ okvc_attached.state = OKVC_IDLE ∧ run_flags_clear okvc_attached ∧
    10 < okvc_attached.prec_valve_ms ∧
    ((run_motor_store okvc_attached 1 2).1.state = OKVC_MOTOR_FORWARD ∧
      (run_motor_store okvc_attached 1 2).1.timer = { expires := 33, enqueued := true }) ∧
    ((run_motor_enc_store okvc_attached 1 2).1.state = OKVC_ENC_FORWARD ∧
      (run_motor_enc_store okvc_attached 1 2).1.pos = 0) ∧
    ((run_spray_store okvc_attached 1 2).1.state = OKVC_SPRAY_PRE ∧
      (run_spray_store okvc_attached 1 2).1.timer = { expires := 50, enqueued := true }) ∧
    ((run_prec_valve_store okvc_attached 1 2).1.state = OKVC_PREC_VALVE_ADC ∧
      (run_prec_valve_store okvc_attached 1 2).1.timer = { expires := 10, enqueued := true }) :=
  have h := start_postcondition okvc_attached 1 2 (by decide) (by decide) (by decide)
  have hp := h.2.2.2 (by decide)
  ⟨by decide, by decide, by decide, by decide, ⟨h.1.1, h.1.2.1⟩, ⟨h.2.1.1, h.2.1.2.1⟩,
    ⟨h.2.2.1.1, h.2.2.1.2.1⟩, ⟨hp.1, hp.2.1⟩⟩

theorem okvc_pwm_config_config_err (okvc_ : okvc) :
    (okvc_pwm_config okvc_).1.pwm.config_err = okvc_.pwm.config_err := by
  unfold okvc_pwm_config pwm_config pwm_enable
  simp only []
  split_ifs <;> rfl

theorem pwm_config_accepted (pwm : pwm_device) (duty_ns period_ns : Int)
    (h : pwm.config_err = 0) :
    (pwm_config pwm duty_ns period_ns).1
      = { pwm with duty_ns := duty_ns, period_ns := period_ns } := by
  unfold pwm_config
  rw [if_neg (by simp [h])]

/-- C16: the plain-motor stop restores the idle-safe outputs, the PWM channel
accepting its configuration.  After an explicit stop (0 written to
`run_motor`) from any state, and after the timer-driven completion of a plain
motor cycle started from Idle (start, expiry in MotorForward, expiry in
MotorBackward), the brake is asserted (`MODE_1_1` high, `DIR_1` low, PWM at
full period), the output-enable line `TXS1` is low and the mode is Idle. -/
theorem motor_stop_restores_idle_safe_outputs (okvc_ : okvc) (val : Int) (count : Nat)
    (hpwm : okvc_.pwm.config_err = 0) :
    motor_idle_safe (run_motor_store okvc_ 0 count).1 ∧
    (to_int val ≠ 0 → okvc_.state = OKVC_IDLE → okvc_.run_motor = 0 →
      motor_idle_safe (okvc_run okvc_ [write_run_motor val count, timer_expiry, timer_expiry])) := by
  refine ⟨?_, fun hrun hidle hflag => ?_⟩
  · rw [run_motor_store_stop okvc_ 0 count to_int_zero]
    have hp := pwm_config_accepted okvc_.pwm pwm_period pwm_period hpwm
    refine ⟨rfl, rfl, ?_, ?_, rfl, rfl⟩
    · show (pwm_config okvc_.pwm pwm_period pwm_period).1.duty_ns = pwm_period
      rw [hp]
    · show (pwm_config okvc_.pwm pwm_period pwm_period).1.period_ns = pwm_period
      rw [hp]
  · -- the start
    obtain ⟨s1, hs1⟩ : ∃ s1, s1 = (run_motor_store okvc_ val count).1 := ⟨_, rfl⟩
    have x1 := hs1
    rw [run_motor_store_start okvc_ val count hrun hidle hflag] at x1
    have m1 : s1.state = OKVC_MOTOR_FORWARD := by rw [x1]
    have q1 : s1.timer.enqueued = true := by rw [x1]
    have p1 : s1.pwm.config_err = 0 := by
      rw [x1]
      show (okvc_pwm_config okvc_).1.pwm.config_err = 0
      rw [okvc_pwm_config_config_err, hpwm]
    -- the expiry in MotorForward
    obtain ⟨s2, hs2⟩ : ∃ s2, s2 = hrtimer_expire s1 := ⟨_, rfl⟩
    have x2 := hs2
    rw [hrtimer_expire_motor_forward s1 q1 m1] at x2
    have m2 : s2.state = OKVC_MOTOR_BACKWARD := by rw [x2]
    have q2 : s2.timer.enqueued = true := by rw [x2]
    have p2 : s2.pwm.config_err = 0 := by
      rw [x2]
      show (okvc_pwm_config s1).1.pwm.config_err = 0
      rw [okvc_pwm_config_config_err, p1]
    have g2 : s2.gpio.txs1 = false := by rw [x2]
    -- the expiry in MotorBackward
    obtain ⟨s3, hs3⟩ : ∃ s3, s3 = hrtimer_expire s2 := ⟨_, rfl⟩
    have x3 := hs3
    rw [hrtimer_expire_motor_backward s2 q2 m2] at x3
    have hp := pwm_config_accepted s2.pwm pwm_period pwm_period p2
    have r3 : okvc_run okvc_ [write_run_motor val count, timer_expiry, timer_expiry] = s3 := by
      simp only [okvc_run_cons, okvc_run_nil, okvc_step_write_run_motor, okvc_step_timer_expiry]
      rw [← hs1, ← hs2, ← hs3]
    rw [r3, x3]
    refine ⟨rfl, rfl, ?_, ?_, g2, rfl⟩
    · show (pwm_config s2.pwm pwm_period pwm_period).1.duty_ns = pwm_period
      rw [hp]
    · show (pwm_config s2.pwm pwm_period pwm_period).1.period_ns = pwm_period
      rw [hp]

theorem motor_stop_restores_idle_safe_outputs_witness :
    okvc_attached.pwm.config_err = 0 ∧ to_int 1 ≠ 0 ∧ okvc_attached.state = OKVC_IDLE ∧
    okvc_attached.run_motor = 0 ∧
    motor_idle_safe (run_motor_store okvc_attached 0 2).1 ∧
    motor_idle_safe (okvc_run okvc_attached [write_run_motor 1 2, timer_expiry, timer_expiry]) :=
  have h := motor_stop_restores_idle_safe_outputs okvc_attached 1 2 (by decide)
  ⟨by decide, by decide, by decide, by decide, h.1, h.2 (by decide) (by decide) (by decide)⟩

/-! ## Mode and run flags along event sequences -/

theorem family_of_eq_none (st : okvc_state) : family_of st = none ↔ st = OKVC_IDLE := by
  cases st <;> simp [family_of]

/-- A move keeps the flag of the active cycle set. -/
theorem okvc_move_active_flag_set (s t : okvc) (e : okvc_event) (hmove : okvc_move s e t)
    (hinv : active_flag_set s) : active_flag_set t := by
  intro g hg
  cases hmove with
  | within hfam hflags =>
    rw [hflags g]
    exact hinv g (hfam ▸ hg)
  | start f hidle hfam hset hflags =>
    rw [hfam] at hg
    cases hg
    exact hset
  | stale f hidle hidle' hwas =>
    rw [hidle'] at hg
    cases hg
  | stop f htarget hidle hclear hflags =>
    rw [hidle] at hg
    cases hg
  | complete f hfam hidle hclear hflags =>
    rw [hidle] at hg
    cases hg

/-- A move whose stop command is on target keeps the set flags confined to the
active cycle. -/
theorem okvc_move_set_flags_active (s t : okvc) (e : okvc_event) (hmove : okvc_move s e t)
    (htarget : on_target s e) (hinv : set_flags_active s) : set_flags_active t := by
  intro g hg
  cases hmove with
  | within hfam hflags =>
    rw [hfam]
    exact hinv g (hflags g ▸ hg)
  | start f hidle hfam hset hflags =>
    by_cases hgf : g = f
    · rw [hgf, hfam]
    · have h := hinv g (hflags g hgf ▸ hg)
      rw [hidle] at h
      cases h
  | stale f hidle hidle' hwas =>
    have h := hinv f hwas
    rw [hidle] at h
    cases h
  | stop f hstop hidle hclear hflags =>
    by_cases hgf : g = f
    · rw [hgf] at hg
      exact absurd hclear hg
    · have h := hinv g (hflags g hgf ▸ hg)
      unfold on_target at htarget
      rw [hstop] at htarget
      rcases htarget with h0 | h0
      · rw [h0] at h
        cases h
      · rw [h0] at h
        cases h
        exact absurd rfl hgf
  | complete f hfam hidle hclear hflags =>
    by_cases hgf : g = f
    · rw [hgf] at hg
      exact absurd hclear hg
    · have h := hinv g (hflags g hgf ▸ hg)
      rw [hfam] at h
      cases h
      exact absurd rfl hgf

/-- An event that leaves the mode and the four run flags alone is a move. -/
theorem okvc_move_of_same (s t : okvc) (e : okvc_event) (hst : t.state = s.state)
    (hm : t.run_motor = s.run_motor) (he : t.run_motor_enc = s.run_motor_enc)
    (hs : t.run_spray = s.run_spray) (hp : t.run_prec_valve = s.run_prec_valve) :
    okvc_move s e t := by
  refine okvc_move.within (by rw [hst]) (fun g => ?_)
  cases g
  · exact hm
  · exact he
  · exact hs
  · exact hp

theorem run_motor_store_busy (okvc_ : okvc) (val : Int) (count : Nat) (hrun : to_int val ≠ 0)
    (hmode : okvc_.state ≠ OKVC_IDLE) :
    run_motor_store okvc_ val count = (okvc_, (count : Int)) := by
  unfold run_motor_store
  simp only []
  rw [if_pos ⟨hrun, hmode⟩]

theorem run_motor_enc_store_busy (okvc_ : okvc) (val : Int) (count : Nat)
    (hrun : to_int val ≠ 0) (hmode : okvc_.state ≠ OKVC_IDLE) :
    run_motor_enc_store okvc_ val count = (okvc_, (count : Int)) := by
  unfold run_motor_enc_store
  simp only []
  rw [if_pos ⟨hrun, hmode⟩]

theorem run_spray_store_busy (okvc_ : okvc) (val : Int) (count : Nat) (hrun : to_int val ≠ 0)
    (hmode : okvc_.state ≠ OKVC_IDLE) :
    run_spray_store okvc_ val count = (okvc_, (count : Int)) := by
  unfold run_spray_store
  simp only []
  rw [if_pos ⟨hrun, hmode⟩]

theorem run_prec_valve_store_busy (okvc_ : okvc) (val : Int) (count : Nat)
    (hrun : to_int val ≠ 0) (hms : 10 ≤ okvc_.prec_valve_ms)
    (hmode : okvc_.state ≠ OKVC_IDLE) :
    run_prec_valve_store okvc_ val count = (okvc_, (count : Int)) := by
  unfold run_prec_valve_store
  simp only []
  rw [if_neg (by omega), if_pos ⟨hrun, hmode⟩]

theorem run_prec_valve_store_refused (okvc_ : okvc) (val : Int) (count : Nat)
    (hms : okvc_.prec_valve_ms < 10) :
    run_prec_valve_store okvc_ val count = (okvc_, (count : Int)) := by
  unfold run_prec_valve_store
  simp only []
  rw [if_pos hms]

theorem run_motor_store_move (okvc_ : okvc) (val : Int) (count : Nat) :
    okvc_move okvc_ (write_run_motor val count) (run_motor_store okvc_ val count).1 := by
  by_cases hrun : to_int val = 0
  · rw [run_motor_store_stop okvc_ val count hrun]
    exact okvc_move.stop .motor (by simp [stop_target, hrun]) rfl rfl
      (fun g hg => by cases g <;> first | rfl | exact absurd rfl hg)
  · by_cases hidle : okvc_.state = OKVC_IDLE
    · by_cases hflag : okvc_.run_motor = 0
      · rw [run_motor_store_start okvc_ val count hrun hidle hflag]
        exact okvc_move.start .motor hidle rfl hrun
          (fun g hg => by cases g <;> first | rfl | exact absurd rfl hg)
      · rw [run_motor_store_stale okvc_ val count hrun hidle hflag]
        exact okvc_move.stale .motor hidle hidle hflag
    · rw [run_motor_store_busy okvc_ val count hrun hidle]
      exact okvc_move_of_same _ _ _ rfl rfl rfl rfl rfl

theorem run_motor_enc_store_move (okvc_ : okvc) (val : Int) (count : Nat) :
    okvc_move okvc_ (write_run_motor_enc val count) (run_motor_enc_store okvc_ val count).1 := by
  by_cases hrun : to_int val = 0
  · rw [run_motor_enc_store_stop okvc_ val count hrun]
    exact okvc_move.stop .motor_enc (by simp [stop_target, hrun]) rfl rfl
      (fun g hg => by cases g <;> first | rfl | exact absurd rfl hg)
  · by_cases hidle : okvc_.state = OKVC_IDLE
    · by_cases hflag : okvc_.run_motor_enc = 0
      · rw [run_motor_enc_store_start okvc_ val count hrun hidle hflag]
        exact okvc_move.start .motor_enc hidle rfl hrun
          (fun g hg => by cases g <;> first | rfl | exact absurd rfl hg)
      · rw [run_motor_enc_store_stale okvc_ val count hrun hidle hflag]
        exact okvc_move.stale .motor_enc hidle hidle hflag
    · rw [run_motor_enc_store_busy okvc_ val count hrun hidle]
      exact okvc_move_of_same _ _ _ rfl rfl rfl rfl rfl

theorem run_spray_store_move (okvc_ : okvc) (val : Int) (count : Nat) :
    okvc_move okvc_ (write_run_spray val count) (run_spray_store okvc_ val count).1 := by
  by_cases hrun : to_int val = 0
  · rw [run_spray_store_stop okvc_ val count hrun]
    exact okvc_move.stop .spray (by simp [stop_target, hrun]) rfl rfl
      (fun g hg => by cases g <;> first | rfl | exact absurd rfl hg)
  · by_cases hidle : okvc_.state = OKVC_IDLE
    · by_cases hflag : okvc_.run_spray = 0
      · rw [run_spray_store_start okvc_ val count hrun hidle hflag]
        exact okvc_move.start .spray hidle rfl hrun
          (fun g hg => by cases g <;> first | rfl | exact absurd rfl hg)
      · rw [run_spray_store_stale okvc_ val count hrun hidle hflag]
        exact okvc_move.stale .spray hidle hidle hflag
    · rw [run_spray_store_busy okvc_ val count hrun hidle]
      exact okvc_move_of_same _ _ _ rfl rfl rfl rfl rfl

theorem run_prec_valve_store_move (okvc_ : okvc) (val : Int) (count : Nat) :
    okvc_move okvc_ (write_run_prec_valve val count)
      (run_prec_valve_store okvc_ val count).1 := by
  by_cases hms : okvc_.prec_valve_ms < 10
  · rw [run_prec_valve_store_refused okvc_ val count hms]
    exact okvc_move_of_same _ _ _ rfl rfl rfl rfl rfl
  · have hms' : 10 ≤ okvc_.prec_valve_ms := by omega
    by_cases hrun : to_int val = 0
    · rw [run_prec_valve_store_stop okvc_ val count hrun hms']
      exact okvc_move.stop .prec_valve (by simp [stop_target, hrun]) rfl rfl
        (fun g hg => by cases g <;> first | rfl | exact absurd rfl hg)
    · by_cases hidle : okvc_.state = OKVC_IDLE
      · by_cases hflag : okvc_.run_prec_valve = 0
        · rw [run_prec_valve_store_start okvc_ val count hrun hms' hidle hflag]
          exact okvc_move.start .prec_valve hidle rfl hrun
            (fun g hg => by cases g <;> first | rfl | exact absurd rfl hg)
        · rw [run_prec_valve_store_stale okvc_ val count hrun hms' hidle hflag]
          exact okvc_move.stale .prec_valve hidle hidle hflag
      · rw [run_prec_valve_store_busy okvc_ val count hrun hms' hidle]
        exact okvc_move_of_same _ _ _ rfl rfl rfl rfl rfl

theorem okvc_irq_other_modes (okvc_ : okvc)
    (hfwd : okvc_.state ≠ OKVC_ENC_FORWARD) (hbwd : okvc_.state ≠ OKVC_ENC_BACKWARD) :
    okvc_irq okvc_ = ({ okvc_ with pos := to_int (okvc_.pos + 1) }, IRQ_HANDLED) := by
  unfold okvc_irq
  rcases hst : okvc_.state <;> simp only [hst] <;>
    first
    | exact absurd hst hfwd
    | exact absurd hst hbwd

/-- The interrupt handler never touches the run flags of the timed cycles. -/
theorem okvc_irq_other_flags (okvc_ : okvc) :
    (okvc_irq okvc_).1.run_motor = okvc_.run_motor ∧
    (okvc_irq okvc_).1.run_spray = okvc_.run_spray ∧
    (okvc_irq okvc_).1.run_prec_valve = okvc_.run_prec_valve := by
  by_cases hfwd : okvc_.state = OKVC_ENC_FORWARD
  · unfold okvc_irq
    simp only [hfwd]
    split_ifs <;> simp
  · by_cases hbwd : okvc_.state = OKVC_ENC_BACKWARD
    · unfold okvc_irq
      simp only [hbwd]
      split_ifs <;> simp
    · rw [okvc_irq_other_modes okvc_ hfwd hbwd]
      exact ⟨rfl, rfl, rfl⟩

theorem okvc_irq_move (okvc_ : okvc) :
    okvc_move okvc_ encoder_pulse (okvc_irq okvc_).1 := by
  obtain ⟨hm, hs, hp⟩ := okvc_irq_other_flags okvc_
  by_cases hfwd : okvc_.state = OKVC_ENC_FORWARD
  · by_cases hgt : to_int (okvc_.pos + 1) > okvc_.forward_cnt
    · obtain ⟨h1, _, h3⟩ := okvc_irq_forward_reversal okvc_ hfwd hgt
      refine okvc_move.within (by rw [h1, hfwd]; rfl) (fun g => ?_)
      cases g
      · exact hm
      · exact h3
      · exact hs
      · exact hp
    · rw [okvc_irq_forward_counting okvc_ hfwd (by omega)]
      exact okvc_move_of_same _ _ _ rfl rfl rfl rfl rfl
  · by_cases hbwd : okvc_.state = OKVC_ENC_BACKWARD
    · by_cases hgt : to_int (okvc_.pos + 1) > okvc_.backward_cnt
      · obtain ⟨h1, h2⟩ := okvc_irq_backward_completion okvc_ hbwd hgt
        refine okvc_move.complete .motor_enc (by rw [hbwd]; rfl) h1 h2 (fun g hg => ?_)
        cases g
        · exact hm
        · exact absurd rfl hg
        · exact hs
        · exact hp
      · rw [okvc_irq_backward_counting okvc_ hbwd (by omega)]
        exact okvc_move_of_same _ _ _ rfl rfl rfl rfl rfl
    · rw [okvc_irq_other_modes okvc_ hfwd hbwd]
      exact okvc_move_of_same _ _ _ rfl rfl rfl rfl rfl

theorem hrtimer_expire_move (okvc_ : okvc) :
    okvc_move okvc_ timer_expiry (hrtimer_expire okvc_) := by
  cases henq : okvc_.timer.enqueued
  · rw [hrtimer_expire_not_pending okvc_ henq]
    exact okvc_move_of_same _ _ _ rfl rfl rfl rfl rfl
  · rcases hst : okvc_.state
    · rw [hrtimer_expire_untimed okvc_ henq (Or.inl hst)]
      exact okvc_move_of_same _ _ _ rfl rfl rfl rfl rfl
    · rw [hrtimer_expire_motor_forward okvc_ henq hst]
      exact okvc_move.within (by rw [hst]; rfl) (fun g => by cases g <;> rfl)
    · rw [hrtimer_expire_motor_backward okvc_ henq hst]
      exact okvc_move.complete .motor (by rw [hst]; rfl) rfl rfl
        (fun g hg => by cases g <;> first | rfl | exact absurd rfl hg)
    · rw [hrtimer_expire_untimed okvc_ henq (Or.inr (Or.inl hst))]
      exact okvc_move_of_same _ _ _ rfl rfl rfl rfl rfl
    · rw [hrtimer_expire_untimed okvc_ henq (Or.inr (Or.inr hst))]
      exact okvc_move_of_same _ _ _ rfl rfl rfl rfl rfl
    · rw [hrtimer_expire_spray_pre okvc_ henq hst]
      exact okvc_move.within (by rw [hst]; rfl) (fun g => by cases g <;> rfl)
    · rw [hrtimer_expire_spray_spray okvc_ henq hst]
      exact okvc_move.within (by rw [hst]; rfl) (fun g => by cases g <;> rfl)
    · rw [hrtimer_expire_spray_post okvc_ henq hst]
      exact okvc_move.complete .spray (by rw [hst]; rfl) rfl rfl
        (fun g hg => by cases g <;> first | rfl | exact absurd rfl hg)
    · rw [hrtimer_expire_prec_valve_adc okvc_ henq hst]
      exact okvc_move.within (by rw [hst]; rfl) (fun g => by cases g <;> rfl)
    · rw [hrtimer_expire_prec_valve_tks okvc_ henq hst]
      exact okvc_move.complete .prec_valve (by rw [hst]; rfl) rfl rfl
        (fun g hg => by cases g <;> first | rfl | exact absurd rfl hg)

theorem run_adc_work_move (okvc_ : okvc) (adc : Nat → Int) :
    okvc_move okvc_ (adc_work_run adc) (run_adc_work okvc_ adc) := by
  unfold run_adc_work
  split_ifs
  · exact okvc_move_of_same _ _ _ rfl rfl rfl rfl rfl
  · exact okvc_move_of_same _ _ _ rfl rfl rfl rfl rfl

theorem pwm_store_move (okvc_ : okvc) (val : Int) (count : Nat) :
    okvc_move okvc_ (write_pwm val count) (pwm_store okvc_ val count).1 := by
  obtain ⟨p, hp⟩ := okvc_pwm_config_frame { okvc_ with pwm_duty_percentx10 := to_int val }
  unfold pwm_store
  simp only []
  rw [hp]
  exact okvc_move_of_same _ _ _ rfl rfl rfl rfl rfl

theorem forward_store_move (okvc_ : okvc) (val : Int) (count : Nat) :
    okvc_move okvc_ (write_forward val count) (forward_store okvc_ val count).1 := by
  unfold forward_store
  simp only []
  split_ifs
  · exact okvc_move_of_same _ _ _ rfl rfl rfl rfl rfl
  · exact okvc_move_of_same _ _ _ (setup_motor_state _ _) (setup_motor_run_motor _ _)
      (setup_motor_run_motor_enc _ _) (setup_motor_run_spray _ _)
      (setup_motor_run_prec_valve _ _)
  · exact okvc_move_of_same _ _ _ (setup_motor_state _ _) (setup_motor_run_motor _ _)
      (setup_motor_run_motor_enc _ _) (setup_motor_run_spray _ _)
      (setup_motor_run_prec_valve _ _)

theorem backward_store_move (okvc_ : okvc) (val : Int) (count : Nat) :
    okvc_move okvc_ (write_backward val count) (backward_store okvc_ val count).1 := by
  unfold backward_store
  simp only []
  split_ifs
  · exact okvc_move_of_same _ _ _ rfl rfl rfl rfl rfl
  · exact okvc_move_of_same _ _ _ (setup_motor_state _ _) (setup_motor_run_motor _ _)
      (setup_motor_run_motor_enc _ _) (setup_motor_run_spray _ _)
      (setup_motor_run_prec_valve _ _)
  · exact okvc_move_of_same _ _ _ (setup_motor_state _ _) (setup_motor_run_motor _ _)
      (setup_motor_run_motor_enc _ _) (setup_motor_run_spray _ _)
      (setup_motor_run_prec_valve _ _)

/-- Every event is a move. -/
theorem okvc_step_move (okvc_ : okvc) (e : okvc_event) :
    okvc_move okvc_ e (okvc_step okvc_ e) := by
  cases e with
  | write_run_motor val count => exact run_motor_store_move okvc_ val count
  | write_run_motor_enc val count => exact run_motor_enc_store_move okvc_ val count
  | write_run_spray val count => exact run_spray_store_move okvc_ val count
  | write_run_prec_valve val count => exact run_prec_valve_store_move okvc_ val count
  | timer_expiry => exact hrtimer_expire_move okvc_
  | encoder_pulse => exact okvc_irq_move okvc_
  | adc_work_run adc => exact run_adc_work_move okvc_ adc
  | write_pwm val count => exact pwm_store_move okvc_ val count
  | write_forward val count => exact forward_store_move okvc_ val count
  | write_backward val count => exact backward_store_move okvc_ val count
  | write_forward_cnt val count => exact okvc_move_of_same _ _ _ rfl rfl rfl rfl rfl
  | write_backward_cnt val count => exact okvc_move_of_same _ _ _ rfl rfl rfl rfl rfl
  | write_reverse_encoder val count => exact okvc_move_of_same _ _ _ rfl rfl rfl rfl rfl
  | write_spray_pre_ms val count => exact okvc_move_of_same _ _ _ rfl rfl rfl rfl rfl
  | write_spray_ms val count => exact okvc_move_of_same _ _ _ rfl rfl rfl rfl rfl
  | write_spray_post_ms val count => exact okvc_move_of_same _ _ _ rfl rfl rfl rfl rfl
  | write_prec_valve_ms val count => exact okvc_move_of_same _ _ _ rfl rfl rfl rfl rfl
  | write_adc_average_start_ms val count => exact okvc_move_of_same _ _ _ rfl rfl rfl rfl rfl
  | write_forward_ms val count => exact okvc_move_of_same _ _ _ rfl rfl rfl rfl rfl
  | write_backward_ms val count => exact okvc_move_of_same _ _ _ rfl rfl rfl rfl rfl

/-- Along every event sequence the flag of the active cycle stays set. -/
theorem active_flag_set_run (okvc_ : okvc) (es : List okvc_event)
    (hinv : active_flag_set okvc_) : active_flag_set (okvc_run okvc_ es) := by
  induction es generalizing okvc_ with
  | nil => exact hinv
  | cons e es ih =>
    rw [okvc_run_cons]
    exact ih _ (okvc_move_active_flag_set _ _ e (okvc_step_move okvc_ e) hinv)

/-- Along an event sequence whose stop commands are on target, only the active
cycle has its flag set. -/
theorem set_flags_active_run (okvc_ : okvc) (es : List okvc_event)
    (htarget : stops_on_target okvc_ es) (hinv : set_flags_active okvc_) :
    set_flags_active (okvc_run okvc_ es) := by
  induction es generalizing okvc_ with
  | nil => exact hinv
  | cons e es ih =>
    rw [okvc_run_cons]
    exact ih _ htarget.2
      (okvc_move_set_flags_active _ _ e (okvc_step_move okvc_ e) htarget.1 hinv)

theorem active_flag_set_of_idle (okvc_ : okvc) (hidle : okvc_.state = OKVC_IDLE) :
    active_flag_set okvc_ := by
  intro f hf
  rw [hidle] at hf
  cases hf

theorem set_flags_active_of_clear (okvc_ : okvc) (hclear : run_flags_clear okvc_) :
    set_flags_active okvc_ := by
  obtain ⟨hm, he, hs, hp⟩ := hclear
  intro f hf
  cases f
  · exact absurd hm hf
  · exact absurd he hf
  · exact absurd hs hf
  · exact absurd hp hf

theorem idle_of_flags_clear (okvc_ : okvc) (hinv : active_flag_set okvc_)
    (hclear : run_flags_clear okvc_) : okvc_.state = OKVC_IDLE := by
  obtain ⟨hm, he, hs, hp⟩ := hclear
  rw [← family_of_eq_none]
  cases hfam : family_of okvc_.state with
  | none => rfl
  | some f =>
    have h := hinv f hfam
    cases f
    · exact absurd hm h
    · exact absurd he h
    · exact absurd hs h
    · exact absurd hp h

theorem flags_clear_of_idle (okvc_ : okvc) (hinv : set_flags_active okvc_)
    (hidle : okvc_.state = OKVC_IDLE) : run_flags_clear okvc_ := by
  have h : ∀ f, run_flag okvc_ f = 0 := by
    intro f
    by_contra hne
    have hf := hinv f hne
    rw [hidle] at hf
    cases hf
  exact ⟨h .motor, h .motor_enc, h .spray, h .prec_valve⟩

/-- C1 (amended): from an initial controller state (mode Idle, all run flags
0), after every finite sequence of attribute writes, timer expiries, encoder
pulses and runs of the sampling work, all four run flags being false implies
that the mode is Idle; and when every stop command of the sequence is on target
(written to the run attribute of the cycle that is active, or while idle), the
mode is Idle if and only if all four run flags are false. -/
theorem idle_iff_flags_clear_on_target (okvc_ : okvc) (es : List okvc_event)
    (hidle : okvc_.state = OKVC_IDLE) (hclear : run_flags_clear okvc_) :
    (run_flags_clear (okvc_run okvc_ es) → (okvc_run okvc_ es).state = OKVC_IDLE) ∧
    (stops_on_target okvc_ es →
      ((okvc_run okvc_ es).state = OKVC_IDLE ↔ run_flags_clear (okvc_run okvc_ es))) := by
  have h1 := active_flag_set_run okvc_ es (active_flag_set_of_idle okvc_ hidle)
  refine ⟨idle_of_flags_clear _ h1, fun htarget => ⟨?_, idle_of_flags_clear _ h1⟩⟩
  exact flags_clear_of_idle _
    (set_flags_active_run okvc_ es htarget (set_flags_active_of_clear okvc_ hclear))

theorem idle_iff_flags_clear_on_target_witness :
    okvc_attached.state = OKVC_IDLE ∧ run_flags_clear okvc_attached ∧
    stops_on_target okvc_attached
      [write_run_motor 1 2, timer_expiry, encoder_pulse, write_run_motor 0 2,
        write_run_spray 1 2, write_run_prec_valve 1 2, write_run_spray 0 2] ∧
    ((okvc_run okvc_attached
        [write_run_motor 1 2, timer_expiry, encoder_pulse, write_run_motor 0 2,
          write_run_spray 1 2, write_run_prec_valve 1 2, write_run_spray 0 2]).state
        = OKVC_IDLE ↔
      run_flags_clear (okvc_run okvc_attached
        [write_run_motor 1 2, timer_expiry, encoder_pulse, write_run_motor 0 2,
          write_run_spray 1 2, write_run_prec_valve 1 2, write_run_spray 0 2])) :=
  ⟨by decide, by decide, by decide,
    (idle_iff_flags_clear_on_target okvc_attached
      [write_run_motor 1 2, timer_expiry, encoder_pulse, write_run_motor 0 2,
        write_run_spray 1 2, write_run_prec_valve 1 2, write_run_spray 0 2]
      (by decide) (by decide)).2 (by decide)⟩

/-- C1 (counterexample): on the attached controller (mode Idle, all run flags 0)
a plain motor cycle is started and then 0 is written to `run_spray`.  The stop
forces the mode to Idle and leaves `run_motor` at 1: the mode is Idle although
not all four run flags are false. -/
theorem idle_with_run_flag_set :
    okvc_attached.state = OKVC_IDLE ∧ run_flags_clear okvc_attached ∧
    (okvc_run okvc_attached [write_run_motor 1 2, write_run_spray 0 2]).state = OKVC_IDLE ∧
    (okvc_run okvc_attached [write_run_motor 1 2, write_run_spray 0 2]).run_motor = 1 ∧
    ¬ ((okvc_run okvc_attached [write_run_motor 1 2, write_run_spray 0 2]).state = OKVC_IDLE ↔
        run_flags_clear (okvc_run okvc_attached [write_run_motor 1 2, write_run_spray 0 2])) := by
  decide

/-! ## The PWM duty conversion -/

/-- On a channel that accepts the configuration, `okvc_pwm_config` programs the
duty it computed and the fixed period, whether or not the enable that follows
succeeds. -/
theorem okvc_pwm_config_programs (okvc_ : okvc) (hok : okvc_.pwm.config_err = 0) :
    (okvc_pwm_config okvc_).1.pwm.duty_ns
      = Int.tdiv (to_int (okvc_.pwm_duty_percentx10 * pwm_period)) 1000 ∧
    (okvc_pwm_config okvc_).1.pwm.period_ns = pwm_period := by
  unfold okvc_pwm_config pwm_config pwm_enable
  simp only [hok, ne_eq, not_true_eq_false, if_false]
  split_ifs <;> exact ⟨rfl, rfl⟩

/-- For a duty of 0 to 1000 tenths of a percent the `int` product with the period
does not wrap and the truncating division by 1000 gives 500 ns per unit. -/
theorem pwm_duty_ns_eq (duty : Int) (h0 : 0 ≤ duty) (h1 : duty ≤ 1000) :
    to_int (duty * pwm_period) = duty * pwm_period ∧
    Int.tdiv (to_int (duty * pwm_period)) 1000 = duty * 500 := by
  have hw : to_int (duty * pwm_period) = duty * pwm_period := by
    apply to_int_of_range <;> unfold pwm_period <;> omega
  refine ⟨hw, ?_⟩
  rw [hw, Int.tdiv_eq_ediv (by unfold pwm_period; omega) (by decide)]
  unfold pwm_period
  omega

/-- C21: the PWM duty conversion.  For every `pwm_duty_percentx10` from 0 to
1000, with the fixed period of 500000 ns and a PWM channel that accepts the
configuration, the duty `okvc_pwm_config` programs is exactly
`pwm_duty_percentx10 * 500` ns, with the period 500000 ns; it lies between 0
and 500000, never above the period; it is monotone in the duty setting; and the
intermediate product `pwm_duty_percentx10 * pwm_period` is at most 500000000,
within the 32-bit signed range, so the `int` multiplication does not wrap. -/
theorem pwm_duty_conversion (s t : okvc)
    (hs0 : 0 ≤ s.pwm_duty_percentx10) (hs1 : s.pwm_duty_percentx10 ≤ 1000)
    (hsok : s.pwm.config_err = 0)
    (ht0 : 0 ≤ t.pwm_duty_percentx10) (ht1 : t.pwm_duty_percentx10 ≤ 1000)
    (htok : t.pwm.config_err = 0) :
    (okvc_pwm_config s).1.pwm.duty_ns = s.pwm_duty_percentx10 * 500 ∧
    (okvc_pwm_config s).1.pwm.period_ns = 500000 ∧
    0 ≤ (okvc_pwm_config s).1.pwm.duty_ns ∧
    (okvc_pwm_config s).1.pwm.duty_ns ≤ (okvc_pwm_config s).1.pwm.period_ns ∧
    (s.pwm_duty_percentx10 ≤ t.pwm_duty_percentx10 →
      (okvc_pwm_config s).1.pwm.duty_ns ≤ (okvc_pwm_config t).1.pwm.duty_ns) ∧
    (0 ≤ s.pwm_duty_percentx10 * pwm_period ∧
      s.pwm_duty_percentx10 * pwm_period ≤ 500000000 ∧
      to_int (s.pwm_duty_percentx10 * pwm_period) = s.pwm_duty_percentx10 * pwm_period) := by
  obtain ⟨hsd, hsp⟩ := okvc_pwm_config_programs s hsok
  obtain ⟨htd, _⟩ := okvc_pwm_config_programs t htok
  obtain ⟨hsw, hse⟩ := pwm_duty_ns_eq s.pwm_duty_percentx10 hs0 hs1
  obtain ⟨_, hte⟩ := pwm_duty_ns_eq t.pwm_duty_percentx10 ht0 ht1
  rw [hse] at hsd
  rw [hte] at htd
  rw [hsd, hsp, htd]
  refine ⟨rfl, rfl, by omega, by unfold pwm_period; omega, fun h => by omega, ?_, ?_, hsw⟩
  · unfold pwm_period; omega
  · unfold pwm_period; omega

theorem pwm_duty_conversion_witness :
    0 ≤ okvc_attached.pwm_duty_percentx10 ∧ okvc_attached.pwm_duty_percentx10 ≤ 1000 ∧
    okvc_attached.pwm.config_err = 0 ∧
    0 ≤ (okvc_run okvc_attached [write_pwm 1000 5]).pwm_duty_percentx10 ∧
    (okvc_run okvc_attached [write_pwm 1000 5]).pwm_duty_percentx10 ≤ 1000 ∧
    (okvc_run okvc_attached [write_pwm 1000 5]).pwm.config_err = 0 ∧
    (okvc_pwm_config okvc_attached).1.pwm.duty_ns = 275000 ∧
    (okvc_pwm_config okvc_attached).1.pwm.period_ns = 500000 ∧
    (okvc_pwm_config okvc_attached).1.pwm.duty_ns
      ≤ (okvc_pwm_config (okvc_run okvc_attached [write_pwm 1000 5])).1.pwm.duty_ns :=
  have h := pwm_duty_conversion okvc_attached (okvc_run okvc_attached [write_pwm 1000 5])
    (by decide) (by decide) (by decide) (by decide) (by decide) (by decide)
  ⟨by decide, by decide, by decide, by decide, by decide, by decide, h.1, h.2.1,
    h.2.2.2.2.1 (by decide)⟩

/-! ## The consistency of mode and run flags that the code keeps -/

/-- C22: in every state reachable from an idle initial state (the state after
probe in particular) by any sequence of run-attribute writes, parameter
writes, timer expiries, encoder pulses and runs of the sampling work, a mode
other than Idle has the run flag of its cycle truthy: MotorForward and
MotorBackward have `run_motor` set, EncMotorForward and EncMotorBackward have
`run_motor_enc` set, the three spray modes have `run_spray` set, the two
precision-valve modes have `run_prec_valve` set. -/
theorem active_mode_has_its_flag_set (okvc_ : okvc) (es : List okvc_event)
    (hidle : okvc_.state = OKVC_IDLE) :
    ((okvc_run okvc_ es).state = OKVC_MOTOR_FORWARD ∨
        (okvc_run okvc_ es).state = OKVC_MOTOR_BACKWARD →
      (okvc_run okvc_ es).run_motor ≠ 0) ∧
    ((okvc_run okvc_ es).state = OKVC_ENC_FORWARD ∨
        (okvc_run okvc_ es).state = OKVC_ENC_BACKWARD →
      (okvc_run okvc_ es).run_motor_enc ≠ 0) ∧
    ((okvc_run okvc_ es).state = OKVC_SPRAY_PRE ∨
        (okvc_run okvc_ es).state = OKVC_SPRAY_SPRAY ∨
        (okvc_run okvc_ es).state = OKVC_SPRAY_POST →
      (okvc_run okvc_ es).run_spray ≠ 0) ∧
    ((okvc_run okvc_ es).state = OKVC_PREC_VALVE_ADC ∨
        (okvc_run okvc_ es).state = OKVC_PREC_VALVE_TKS →
      (okvc_run okvc_ es).run_prec_valve ≠ 0) := by
  have hinv := active_flag_set_run okvc_ es (active_flag_set_of_idle okvc_ hidle)
  refine ⟨fun h => ?_, fun h => ?_, fun h => ?_, fun h => ?_⟩
  · exact hinv .motor (by rcases h with h | h <;> rw [h] <;> rfl)
  · exact hinv .motor_enc (by rcases h with h | h <;> rw [h] <;> rfl)
  · exact hinv .spray (by rcases h with h | h | h <;> rw [h] <;> rfl)
  · exact hinv .prec_valve (by rcases h with h | h <;> rw [h] <;> rfl)

theorem active_mode_has_its_flag_set_witness :
    okvc_attached.state = OKVC_IDLE ∧
    (okvc_run okvc_attached
        [write_run_motor 1 2, write_backward_ms 70 3, write_run_spray 0 2,
          write_run_prec_valve 5 2, encoder_pulse, timer_expiry]).state
      = OKVC_PREC_VALVE_TKS ∧
    (okvc_run okvc_attached
        [write_run_motor 1 2, write_backward_ms 70 3, write_run_spray 0 2,
          write_run_prec_valve 5 2, encoder_pulse, timer_expiry]).run_prec_valve ≠ 0 :=
  ⟨by decide, by decide,
    (active_mode_has_its_flag_set okvc_attached
        [write_run_motor 1 2, write_backward_ms 70 3, write_run_spray 0 2,
          write_run_prec_valve 5 2, encoder_pulse, timer_expiry] (by decide)).2.2.2
      (Or.inr (by decide))⟩

/-! ## The timed-stage callback against the transition table -/

/-- C11 (amended): the callback implements exactly the transition table, action
column included.  For every controller whose mode has a row in the table
(MotorForward, MotorBackward, SprayPre, SpraySpray, SprayPost,
PrecValveSampling, PrecValveSettling) and, in PrecValveSampling, whose
difference `prec_valve_ms - adc_average_start_ms` fits a C `int`, the callback
gives the very controller and answer the table asks for: the actions of the
row performed on the outputs, the run flags and the sampling work, the
deadline moved on by the interval of the row where one is listed and left
alone otherwise, the next mode of the row, and everything else untouched; in
particular it takes the next mode and answers `HRTIMER_RESTART` exactly when
the row lists a rearm interval. -/
theorem timer_callback_implements_table (okvc_ : okvc) (row : table_row)
    (hrow : spec_table okvc_ = some row)
    (hfit : okvc_.state = OKVC_PREC_VALVE_ADC →
      -2147483648 ≤ okvc_.prec_valve_ms - okvc_.adc_average_start_ms ∧
      okvc_.prec_valve_ms - okvc_.adc_average_start_ms ≤ 2147483647) :
    okvc_timer_callback okvc_ = spec_callback okvc_ row ∧
    (okvc_timer_callback okvc_).1.state = row.next ∧
    ((okvc_timer_callback okvc_).2 = HRTIMER_RESTART ↔ row.rearm.isSome = true) := by
  unfold spec_table at hrow
  rcases hmode : okvc_.state <;> rw [hmode] at hrow <;> simp only [] at hrow
  · exact absurd hrow (by simp)
  · rw [okvc_timer_callback_motor_forward okvc_ hmode, setup_motor_ccw]
    cases hrow
    exact ⟨rfl, rfl, by simp⟩
  · rw [okvc_timer_callback_motor_backward okvc_ hmode, setup_motor_brake]
    cases hrow
    exact ⟨rfl, rfl, by simp⟩
  · exact absurd hrow (by simp)
  · exact absurd hrow (by simp)
  · rw [okvc_timer_callback_spray_pre okvc_ hmode]
    cases hrow
    exact ⟨rfl, rfl, by simp⟩
  · rw [okvc_timer_callback_spray_spray okvc_ hmode]
    cases hrow
    exact ⟨rfl, rfl, by simp⟩
  · rw [okvc_timer_callback_spray_post okvc_ hmode]
    cases hrow
    exact ⟨rfl, rfl, by simp⟩
  · rw [okvc_timer_callback_prec_valve_adc okvc_ hmode,
      to_int_of_range _ (hfit hmode).1 (hfit hmode).2]
    cases hrow
    exact ⟨rfl, rfl, by simp⟩
  · rw [okvc_timer_callback_prec_valve_tks okvc_ hmode]
    cases hrow
    exact ⟨rfl, rfl, by simp⟩

theorem timer_callback_implements_table_witness :
    spec_table motor_forward_running
      = some { actions := [.reverse_direction, .deassert_output_enable],
               rearm := some 66, next := OKVC_MOTOR_BACKWARD } ∧
    (motor_forward_running.state = OKVC_PREC_VALVE_ADC →
      -2147483648 ≤ motor_forward_running.prec_valve_ms
          - motor_forward_running.adc_average_start_ms ∧
      motor_forward_running.prec_valve_ms - motor_forward_running.adc_average_start_ms
        ≤ 2147483647) ∧
    okvc_timer_callback motor_forward_running
      = spec_callback motor_forward_running
          { actions := [.reverse_direction, .deassert_output_enable],
            rearm := some 66, next := OKVC_MOTOR_BACKWARD } ∧
    (okvc_timer_callback motor_forward_running).1.state = OKVC_MOTOR_BACKWARD ∧
    (okvc_timer_callback motor_forward_running).2 = HRTIMER_RESTART ∧
    (spec_callback motor_forward_running
        { actions := [.reverse_direction, .deassert_output_enable],
          rearm := some 66, next := OKVC_MOTOR_BACKWARD }).1.gpio
      = { sleep_1 := true, dir_1 := true, mode_1_1 := false, txs_oe := true,
          txs1 := false, txs2 := false } ∧
    (spec_callback motor_forward_running
        { actions := [.reverse_direction, .deassert_output_enable],
          rearm := some 66, next := OKVC_MOTOR_BACKWARD }).1.timer
      = { expires := 99, enqueued := true } :=
  have h := timer_callback_implements_table motor_forward_running
    { actions := [.reverse_direction, .deassert_output_enable],
      rearm := some 66, next := OKVC_MOTOR_BACKWARD } (by decide) (by decide)
  ⟨by decide, by decide, h.1, h.2.1, h.2.2.mpr rfl, by decide, by decide⟩

/-- C11 (counterexample): a precision-valve cycle is started on the attached
controller with `prec_valve_ms` = 2147483647 and `adc_average_start_ms` = -1.
The mode is PrecValveSampling and the table lists the rearm interval
2147483647 - (-1) = 2147483648; the callback moves the deadline by
-2147483648, the `int` difference after it has wrapped, so its result is not
the one the table asks for. -/
theorem timer_callback_interval_wraps :
    prec_valve_wrapping.state = OKVC_PREC_VALVE_ADC ∧
    prec_valve_wrapping.prec_valve_ms = 2147483647 ∧
    prec_valve_wrapping.adc_average_start_ms = -1 ∧
    spec_table prec_valve_wrapping
      = some { actions := [.schedule_sampling], rearm := some 2147483648,
               next := OKVC_PREC_VALVE_TKS } ∧
    (okvc_timer_callback prec_valve_wrapping).1.timer.expires
      = prec_valve_wrapping.timer.expires + (-2147483648) ∧
    (okvc_timer_callback prec_valve_wrapping).1.timer.expires
      ≠ prec_valve_wrapping.timer.expires + 2147483648 ∧
    okvc_timer_callback prec_valve_wrapping
      ≠ spec_callback prec_valve_wrapping
          { actions := [.schedule_sampling], rearm := some 2147483648,
            next := OKVC_PREC_VALVE_TKS } := by
  decide

/-! ## A stop request against an encoder pulse -/

theorem pwm_config_config_err (pwm : pwm_device) (duty_ns period_ns : Int) :
    (pwm_config pwm duty_ns period_ns).1.config_err = pwm.config_err := by
  unfold pwm_config
  split_ifs <;> rfl

theorem pwm_enable_config_err (pwm : pwm_device) :
    (pwm_enable pwm).1.config_err = pwm.config_err := by
  unfold pwm_enable
  split_ifs <;> rfl

theorem pwm_config_twice (pwm : pwm_device) (duty_ns period_ns : Int) :
    (pwm_config (pwm_config pwm duty_ns period_ns).1 duty_ns period_ns).1
      = (pwm_config pwm duty_ns period_ns).1 := by
  unfold pwm_config
  split_ifs <;> simp_all

/-- The interrupt handler leaves the answer of the PWM channel to configuration
requests as it is. -/
theorem okvc_irq_config_err (okvc_ : okvc) :
    (okvc_irq okvc_).1.pwm.config_err = okvc_.pwm.config_err := by
  by_cases hfwd : okvc_.state = OKVC_ENC_FORWARD
  · unfold okvc_irq
    simp only [hfwd]
    split_ifs <;>
      simp [setup_motor_brake, setup_motor_ccw, pwm_enable_config_err,
        okvc_pwm_config_config_err, pwm_config_config_err]
  · by_cases hbwd : okvc_.state = OKVC_ENC_BACKWARD
    · unfold okvc_irq
      simp only [hbwd]
      split_ifs <;> simp [setup_motor_brake, pwm_config_config_err]
    · rw [okvc_irq_other_modes okvc_ hfwd hbwd]

/-- The writes of the stop branch, run without interruption, are the stop
request of the store. -/
theorem run_motor_enc_stop_steps_eq (okvc_ : okvc) (val : Int) (count : Nat)
    (hrun : to_int val = 0) :
    run_steps run_motor_enc_stop_steps okvc_ = (run_motor_enc_store okvc_ val count).1 := by
  rw [run_motor_enc_store_stop okvc_ val count hrun]
  rfl

theorem enc_stop_with_pulse_at_0 (okvc_ : okvc) :
    enc_stop_with_pulse_at 0 okvc_ = run_steps run_motor_enc_stop_steps (okvc_irq okvc_).1 :=
  rfl

theorem enc_stop_with_pulse_at_1 (okvc_ : okvc) :
    enc_stop_with_pulse_at 1 okvc_ =
      run_steps (run_motor_enc_stop_steps.drop 1)
        (okvc_irq { okvc_ with gpio := gpio_set_value okvc_.gpio TXS1 0 }).1 := rfl

theorem enc_stop_with_pulse_at_5 (okvc_ : okvc) :
    enc_stop_with_pulse_at 5 okvc_ =
      { (okvc_irq (run_steps (run_motor_enc_stop_steps.take 5) okvc_)).1 with
        run_motor_enc := 0 } := rfl

theorem enc_stop_with_pulse_at_6 (okvc_ : okvc) :
    enc_stop_with_pulse_at 6 okvc_
      = (okvc_irq (run_steps run_motor_enc_stop_steps okvc_)).1 := rfl

theorem enc_stop_with_pulse_at_late (okvc_ : okvc) (n : Nat) :
    enc_stop_with_pulse_at (n + 6) okvc_ = enc_stop_with_pulse_at 6 okvc_ := by
  have hlen : run_motor_enc_stop_steps.length ≤ n + 6 := by
    show 6 ≤ n + 6
    omega
  unfold enc_stop_with_pulse_at
  rw [List.take_of_length_le hlen, List.drop_of_length_le hlen]
  rfl

/-- The brake sequence, the assignment of Idle and the clearing of the flag win
the stop on a PWM channel that accepts the configuration. -/
theorem stop_won_brake_steps (okvc_ : okvc) (hpwm : okvc_.pwm.config_err = 0) :
    stop_won (run_steps (run_motor_enc_stop_steps.drop 1) okvc_) := by
  have hp := pwm_config_accepted okvc_.pwm pwm_period pwm_period hpwm
  refine ⟨rfl, rfl, rfl, ?_, ?_, rfl⟩
  · show (pwm_config okvc_.pwm pwm_period pwm_period).1.duty_ns = pwm_period
    rw [hp]
  · show (pwm_config okvc_.pwm pwm_period pwm_period).1.period_ns = pwm_period
    rw [hp]

theorem stop_won_run_steps (okvc_ : okvc) (hpwm : okvc_.pwm.config_err = 0) :
    stop_won (run_steps run_motor_enc_stop_steps okvc_) :=
  stop_won_brake_steps { okvc_ with gpio := gpio_set_value okvc_.gpio TXS1 0 } hpwm

/-- A pulse handled once the stop has won changes only the position. -/
theorem stop_won_irq (okvc_ : okvc) (h : stop_won okvc_) : stop_won (okvc_irq okvc_).1 := by
  have hidle := h.1
  rw [okvc_irq_other_modes okvc_ (by rw [hidle]; decide) (by rw [hidle]; decide)]
  exact h

theorem stop_won_pulses (okvc_ : okvc) (h : stop_won okvc_) (m : Nat) :
    stop_won (okvc_pulses m okvc_) := by
  induction m with
  | zero => exact h
  | succ m ih =>
    rw [okvc_pulses_succ]
    exact stop_won_irq _ ih

/-- The stop wins against a pulse handled before the brake sequence begins or
after the mode has been set to Idle. -/
theorem stop_won_enc_stop_with_pulse_at (okvc_ : okvc) (i : Nat)
    (hpwm : okvc_.pwm.config_err = 0) (hpos : i ≤ 1 ∨ 5 ≤ i) :
    stop_won (enc_stop_with_pulse_at i okvc_) := by
  match i, hpos with
  | 0, _ =>
    rw [enc_stop_with_pulse_at_0]
    exact stop_won_run_steps _ (by rw [okvc_irq_config_err]; exact hpwm)
  | 1, _ =>
    rw [enc_stop_with_pulse_at_1]
    apply stop_won_brake_steps
    rw [okvc_irq_config_err]
    exact hpwm
  | 2, h => omega
  | 3, h => omega
  | 4, h => omega
  | 5, _ =>
    rw [enc_stop_with_pulse_at_5]
    obtain ⟨_, h2, h3, h4, h5, _⟩ := stop_won_run_steps okvc_ hpwm
    rw [okvc_irq_other_modes _ (by show OKVC_IDLE ≠ OKVC_ENC_FORWARD; decide)
      (by show OKVC_IDLE ≠ OKVC_ENC_BACKWARD; decide)]
    exact ⟨rfl, h2, h3, h4, h5, rfl⟩
  | n + 6, _ =>
    rw [enc_stop_with_pulse_at_late, enc_stop_with_pulse_at_6]
    exact stop_won_irq _ (stop_won_run_steps _ hpwm)

theorem run_motor_enc_store_stop_twice (okvc_ : okvc) (count : Nat) :
    (run_motor_enc_store (run_motor_enc_store okvc_ 0 count).1 0 count).1
      = (run_motor_enc_store okvc_ 0 count).1 := by
  have h1 := run_motor_enc_store_stop okvc_ 0 count to_int_zero
  rw [h1, run_motor_enc_store_stop _ 0 count to_int_zero]
  simp only [pwm_config_twice]

end Okvc
